import Mathlib

/-!
Verification of the fraud-scoring pipeline of the FraudForge backend.

The definitions below are a shallow embedding of the Python sources under
`backend/app` (the validation arbiter `core/validation.py`, the deterministic
scoring chains `llm/chains/*.py`, the pre-check engine `llm/prechecks.py` and
`llm/ofac.py`, the provider orchestration control flow `llm/orchestrator.py`,
and the response parser `llm/parsing.py`).  Python floats are modelled as
rationals, Python dict records as association lists of dynamically typed
values, and raising coercions (`float(...)`, `int(...)`) as `Except`-valued
functions distinguishing `ValueError` from `TypeError` so that the
`try/except` clauses of the source can be reproduced exactly.  Network calls
made by the provider helpers are abstracted as an oracle (environment) giving
the parsed outcome of each (provider, model) attempt; everything else is
translated from the source line by line.
-/

namespace FraudForge

/-! ## Python value model -/

/-- Dynamically typed Python values as they occur in the request records. -/
inductive PyVal where
  | str (s : String)
  | num (q : ℚ)
  | bool (b : Bool)
  | list (xs : List PyVal)
  | none

/-- Python errors raised by the numeric coercions used in the scoring code. -/
inductive PyErr where
  | valueError
  | typeError
deriving DecidableEq

/-- A record is an untyped key/value map (Python `dict`). -/
def Record := List (String × PyVal)

/-- Python `dict.get(key, default)`. -/
def Record.get (d : Record) (key : String) (dflt : PyVal) : PyVal :=
  match d.find? (fun kv => kv.1 = key) with
  | Option.some kv => kv.2
  | Option.none => dflt

/-- Python truthiness of a value (used by `or`, bare `if data.get(...)`). -/
def pyTruthy : PyVal → Bool
  | .str s => if s = "" then false else true
  | .num q => if q = 0 then false else true
  | .bool b => b
  | .list xs => if xs.isEmpty then false else true
  | .none => false

/-! ### character and string helpers (ASCII semantics of the source) -/

/-- Whitespace characters recognised by Python `str.strip` and regex `\s`. -/
def isSpaceCh (c : Char) : Bool :=
  c = ' ' || c = '\t' || c = '\n' || c = '\r' || c = Char.ofNat 11 || c = Char.ofNat 12

def strLower (s : String) : String := String.mk (s.data.map Char.toLower)

/-- Whether `pat` begins the character list `l`. -/
def leadsWith : List Char → List Char → Bool
  | [], _ => true
  | _ :: _, [] => false
  | a :: as, b :: bs => a = b && leadsWith as bs

/-- Python substring containment `pat in s` on character lists. -/
def containsSub (pat : List Char) : List Char → Bool
  | [] => leadsWith pat []
  | l@(_ :: t) => leadsWith pat l || containsSub pat t

/-- Python `pat in s` on strings (case sensitive, as in the source). -/
def strIn (pat s : String) : Bool := containsSub pat.data s.data

/-- Characters before the first occurrence of `c` (Python `s.split(c)[0]`). -/
def splitHead (c : Char) : List Char → List Char
  | [] => []
  | a :: t => if a = c then [] else a :: splitHead c t

/-- Python `str.title()` for ASCII text: uppercase every letter that follows a
non-letter, lowercase the others. -/
def pyTitleGo : Bool → List Char → List Char
  | _, [] => []
  | prevAlpha, c :: t =>
    (if c.isAlpha then (if prevAlpha then c.toLower else c.toUpper) else c) ::
      pyTitleGo c.isAlpha t

def pyTitle (s : String) : String := String.mk (pyTitleGo false s.data)

/-! ### numeric coercions

`float(...)` / `int(...)` applied to record values.  String parsing models
Python's decimal literals (optional sign, digits, optional fractional part);
scientific notation never occurs in the repository's data.  A non-numeric
string raises `ValueError`, a `None`/list value raises `TypeError`, exactly
the two exception classes the source catches selectively. -/

def digitVal (c : Char) : ℕ := c.toNat - 48

def readNatDigits : List Char → ℕ → ℕ
  | [], acc => acc
  | c :: t, acc => readNatDigits t (acc * 10 + digitVal c)

/-- Parse an unsigned decimal literal `digits[.digits]` into a rational. -/
def parseUnsignedDec (l : List Char) : Option ℚ :=
  let intPart := l.takeWhile Char.isDigit
  let rest := l.dropWhile Char.isDigit
  match rest with
  | [] =>
    if intPart = [] then Option.none
    else Option.some ((readNatDigits intPart 0 : ℚ))
  | '.' :: frac =>
    let fracDigits := frac.takeWhile Char.isDigit
    if frac.dropWhile Char.isDigit ≠ [] then Option.none
    else if intPart = [] ∧ fracDigits = [] then Option.none
    else
      Option.some ((readNatDigits intPart 0 : ℚ) +
        (readNatDigits fracDigits 0 : ℚ) / ((10 : ℚ) ^ fracDigits.length))
  | _ => Option.none

/-- Parse a Python float literal (with surrounding whitespace and sign). -/
def parseFloatStr (s : String) : Option ℚ :=
  let l := (s.data.dropWhile isSpaceCh).reverse.dropWhile isSpaceCh |>.reverse
  match l with
  | '-' :: t => (parseUnsignedDec t).map (fun q => -q)
  | '+' :: t => parseUnsignedDec t
  | t => parseUnsignedDec t

/-- Parse a Python int literal (no fractional part allowed). -/
def parseIntStr (s : String) : Option ℤ :=
  let l := (s.data.dropWhile isSpaceCh).reverse.dropWhile isSpaceCh |>.reverse
  let core : List Char → Option ℤ := fun t =>
    if t ≠ [] ∧ t.all Char.isDigit then Option.some (readNatDigits t 0 : ℤ)
    else Option.none
  match l with
  | '-' :: t => (core t).map Neg.neg
  | '+' :: t => core t
  | t => core t

/-- Truncation toward zero, the behaviour of Python `int()` on a float. -/
def truncQ (q : ℚ) : ℤ := if 0 ≤ q then ⌊q⌋ else ⌈q⌉

/-- Python `float(v)`. -/
def pyFloat : PyVal → Except PyErr ℚ
  | .num q => .ok q
  | .bool b => .ok (if b then 1 else 0)
  | .str s =>
    match parseFloatStr s with
    | Option.some q => .ok q
    | Option.none => .error .valueError
  | .list _ => .error .typeError
  | .none => .error .typeError

/-- Python `int(v)`. -/
def pyInt : PyVal → Except PyErr ℤ
  | .num q => .ok (truncQ q)
  | .bool b => .ok (if b then 1 else 0)
  | .str s =>
    match parseIntStr s with
    | Option.some z => .ok z
    | Option.none => .error .valueError
  | .list _ => .error .typeError
  | .none => .error .typeError

/-- Python `str(v)`.  Non-integer rationals are rendered as `num/den`; the
source only ever applies `str` to values used in substring tests, and no
theorem depends on the rendering of a non-integer number. -/
def pyStr : PyVal → String
  | .str s => s
  | .num q => if q.den = 1 then toString q.num else toString q.num ++ "/" ++ toString q.den
  | .bool b => if b then "True" else "False"
  | .list _ => "[...]"
  | .none => "None"

/-- `int(v)` guarded by `try/except (ValueError, TypeError)` with a default,
the pattern used for the age/velocity fields of the chains. -/
def pyIntOr (v : PyVal) (dflt : ℤ) : ℤ :=
  match pyInt v with
  | .ok z => z
  | .error _ => dflt

/-- `float(v)` guarded by `try/except (ValueError, TypeError)` with a default. -/
def pyFloatOr (v : PyVal) (dflt : ℚ) : ℚ :=
  match pyFloat v with
  | .ok q => q
  | .error _ => dflt

/-! ## Risk levels (`parsing.get_risk_level` / `validation.get_risk_level`)

Both copies implement the same fixed thresholds; `parsing.py` renders the
bucket in upper case and `validation.py` in lower case, so the bucket itself
is modelled as an enumeration. -/

inductive Risk where
  | low
  | medium
  | high
  | critical
deriving DecidableEq

/-- `get_risk_level` of `app/llm/parsing.py` (same thresholds as the copy in
`app/core/validation.py`): score < 30 LOW, < 60 MEDIUM, < 85 HIGH, else
CRITICAL. -/
def get_risk_level (fraud_score : ℚ) : Risk :=
  if fraud_score < 30 then .low
  else if fraud_score < 60 then .medium
  else if fraud_score < 85 then .high
  else .critical

/-- Python `abs` on floats (kept explicit so scores evaluate by `decide`). -/
def absQ (q : ℚ) : ℚ := if q < 0 then -q else q

/-- Sectors (closed enumeration). -/
inductive Sector where
  | banking
  | medical
  | ecommerce
  | supply_chain
deriving DecidableEq

/-! ## Validation arbiter (`core/validation.py`, `validate_llm_result`)

The decision core of `validate_llm_result` (lines 74-140): given the
rule-based score, the model score and the model result's risk level, decide
whether to use the model result (`use_hf`).  The rule-based risk level is
computed from the rule-based score inside the function, exactly as in the
source. -/

def validate_llm_decision (sector : Sector) (rule_based_score hf_score : ℚ)
    (hf_risk : Risk) : Bool :=
  let score_diff := absQ (hf_score - rule_based_score)
  let rule_based_risk := get_risk_level rule_based_score
  if sector = .medical then
    if rule_based_score > 75 ∧ hf_score < 25 then false else true
  else
    if rule_based_score < 10 ∧ hf_score > 85 then false
    else if rule_based_score > 60 ∧ hf_score < 30 then false
    else if rule_based_score < 10 then true
    else if rule_based_score < 30 then
      if score_diff > 40 then false else true
    else if score_diff > 20 then false
    else if score_diff > 15 ∧ rule_based_risk ≠ hf_risk then false
    else true

/-- Final score selection of the workflow (`core/router.py`,
`_analyze_with_llm`): acceptance uses the model score, rejection the
rule-based one. -/
def router_final_score (use_hf : Bool) (rule_based_score hf_score : ℚ) : ℚ :=
  if use_hf then hf_score else rule_based_score

/-- The non-medical decision table exactly as the specification words it
(§4.6 rules 1-7), parameterised by the rule-4 tolerance.  This definition
follows the spec text and is compared against `validate_llm_decision`. -/
def spec_arbitration (tol : ℚ) (d m : ℚ) (model_risk : Risk) : Bool :=
  if d < 10 ∧ m > 85 then false
  else if d > 60 ∧ m < 30 then false
  else if d < 10 then true
  else if d < 30 then
    if absQ (m - d) > tol then false else true
  else if absQ (m - d) > 20 then false
  else if absQ (m - d) > 15 ∧ get_risk_level d ≠ model_risk then false
  else true

/-! ## Deterministic scoring chains (`app/llm/chains/*.py`)

Scores are accumulated exactly as in the source; a guarded `try/except`
coercion becomes `pyIntOr`/`pyFloatOr`, an unguarded `float(...)`/`int(...)`
becomes a fallible `pyFloat`/`pyInt` bind whose error propagates out of the
chain, as the exception does in Python. -/

def strUpper (s : String) : String := String.mk (s.data.map Char.toUpper)

/-- Python `s.replace(" ", "")`. -/
def removeSpaces (s : String) : String := String.mk (s.data.filter (fun c => c ≠ ' '))

/-- Final clamp applied by every chain: `max(0, min(100, score))`. -/
def clamp0100 (score : ℚ) : ℚ := max 0 (min 100 score)

def high_risk_locations : List String :=
  ["nigeria", "russia", "china", "unknown", "cayman islands"]

/-! ### banking chain (`banking_chain.py`), written factor by factor so that
the additive decomposition used by claim C9 is the very same code. -/

def banking_amount_factor (data : Record) : ℚ :=
  let amount := pyFloatOr (data.get "amount" (.num 0)) 0
  if amount > 100000 then 30
  else if amount > 50000 then 20
  else if amount > 10000 then 15
  else if amount > 5000 then 10
  else if amount < 1000 then -10
  else 0

def banking_location_factor (data : Record) : ℚ :=
  let location := strLower (pyStr (data.get "location" (.str "")))
  let source_country := strLower (pyStr (data.get "source_country" (.str "")))
  let dest_country := strLower (pyStr (data.get "destination_country" (.str "")))
  if high_risk_locations.any
      (fun loc => strIn loc location || strIn loc source_country || strIn loc dest_country) then 30
  else if strIn "united states" location || strIn "united states" source_country then -5
  else 0

def banking_ip_factor (data : Record) : ℚ :=
  let ip_address := strLower (pyStr (data.get "ip_address" (.str "")))
  if strIn "tor" ip_address || strIn "vpn detected" ip_address then 25
  else if strIn "unknown" ip_address then 15
  else 0

def banking_type_factor (data : Record) : ℚ :=
  let transaction_type := strLower (pyStr (data.get "transaction_type" (.str "")))
  if strIn "crypto" transaction_type || strIn "nft" transaction_type then 15 else 0

def banking_time_factor (data : Record) : ℚ :=
  let tv := data.get "time" (.str "")
  let time_str := strLower (pyStr (if pyTruthy tv then tv else data.get "transaction_time" (.str "")))
  if (if time_str = "" then false else true) && strIn ":" time_str then
    match parseIntStr (String.mk (splitHead ':' time_str.data)) with
    | Option.some hour =>
      if 0 ≤ hour ∧ hour < 6 then 15 else if hour ≥ 22 then 10 else 0
    | Option.none => 0
  else 0

def banking_age_factor (data : Record) : ℚ :=
  let account_age := pyIntOr (data.get "account_age_days" (.num 365)) 365
  if account_age < 1 then 30
  else if account_age < 7 then 25
  else if account_age < 30 then 15
  else if account_age < 90 then 5
  else if account_age ≥ 730 then -15
  else if account_age ≥ 365 then -10
  else 0

def banking_velocity_factor (data : Record) : ℚ :=
  let velocity := pyIntOr (data.get "transaction_velocity" (.num 0)) 0
  if velocity > 20 then 25
  else if velocity > 10 then 15
  else if velocity > 5 then 5
  else if velocity ≤ 2 then -5
  else 0

def banking_kyc_factor (data : Record) : ℚ :=
  if pyTruthy (data.get "kyc_verified" (.bool false)) then -20 else 25

def banking_flagged_factor (data : Record) : ℚ :=
  if pyTruthy (data.get "previous_flagged" (.bool false)) then 30 else 0

def banking_wallet_factor (data : Record) : ℚ :=
  let sender_wallet := strLower (pyStr (data.get "sender_wallet" (.str "")))
  let receiver_wallet := strLower (pyStr (data.get "receiver_wallet" (.str "")))
  if (if sender_wallet = "" then false else true) &&
      (strIn "0000000000000000000000000000000000000000" sender_wallet ||
        strIn "tornado" receiver_wallet) then 40
  else 0

/-- The per-factor contributions of `score_banking_fraud`, in source order. -/
def bankingFactors (data : Record) : List ℚ :=
  [banking_amount_factor data, banking_location_factor data, banking_ip_factor data,
   banking_type_factor data, banking_time_factor data, banking_age_factor data,
   banking_velocity_factor data, banking_kyc_factor data, banking_flagged_factor data,
   banking_wallet_factor data]

/-- `score_banking_fraud` of `banking_chain.py`: the running total of the ten
factor contributions, clamped to [0, 100]. -/
def score_banking_fraud (data : Record) : ℚ :=
  clamp0100 (0 + banking_amount_factor data + banking_location_factor data +
    banking_ip_factor data + banking_type_factor data + banking_time_factor data +
    banking_age_factor data + banking_velocity_factor data + banking_kyc_factor data +
    banking_flagged_factor data + banking_wallet_factor data)

/-! ### medical chain (`medical_chain.py`) -/

def score_medical_fraud (data : Record) : ℚ :=
  let claim_amount := pyFloatOr (data.get "claim_amount" (.num 0)) 0
  let score : ℚ :=
    (if claim_amount > 100000 then 35
     else if claim_amount > 50000 then 25
     else if claim_amount > 20000 then 15
     else if claim_amount < 1000 then -5
     else 0)
  let procedures := data.get "procedures" (.list [])
  let score := score +
    (match procedures with
     | .list ps => if ps.length > 10 then 30 else if ps.length > 5 then 20 else 0
     | .str s =>
       let procedure_count := if s = "" then 0 else s.data.count ',' + 1
       if procedure_count > 10 then 30 else if procedure_count > 5 then 20 else 0
     | _ => 0)
  let provider_history := strLower (pyStr (data.get "provider_history" (.str "clean")))
  let score := score +
    (if strIn "flagged" provider_history || strIn "suspended" provider_history then 45
     else if strIn "clean" provider_history || strIn "verified" provider_history then -5
     else 0)
  let score := score + (if pyTruthy (data.get "diagnosis_mismatch" (.bool false)) then 40 else 0)
  let score := score + (if pyTruthy (data.get "provider_verified" (.bool true)) then 0 else 25)
  clamp0100 score

/-! ### e-commerce chain (`ecommerce_chain.py`)

The `float(...)` reads of `listed_price`, `price`, `market_price`, `amount`
and `order_amount` are not wrapped in `try/except` in the source, so their
coercion errors propagate. -/

def NEGATIVE_KEYWORDS : List String :=
  ["bad", "scam", "fraud", "fake", "counterfeit", "poor", "terrible",
   "worst", "awful", "never received", "stolen", "illegal", "suspicious",
   "delays", "never arrived", "defective", "broken", "misleading"]

def ecommerce_running_total (data : Record) : Except PyErr ℚ := do
  let seller_age := pyIntOr (data.get "seller_age_days" (.num 365)) 365
  let score : ℚ :=
    (if seller_age < 1 then 45
     else if seller_age < 7 then 40
     else if seller_age < 30 then 25
     else if seller_age < 90 then 10
     else if seller_age ≥ 730 then -10
     else 0)
  let v1 ← pyFloat (data.get "listed_price" (.num 0))
  let price ← if v1 = 0 then pyFloat (data.get "price" (.num 0)) else Except.ok v1
  let market_price ← pyFloat (data.get "market_price" (.num price))
  let score := score +
    (if market_price > 0 ∧ price > 0 then
      let markup := price / market_price
      if markup > 10 then 60
      else if markup > 5 then 45
      else if markup > 2 then 30
      else if price < market_price then
        let discount_pct := ((market_price - price) / market_price) * 100
        if discount_pct > 70 then 50
        else if discount_pct > 50 then 40
        else if discount_pct > 30 then 25
        else 0
      else if (9 : ℚ)/10 ≤ markup ∧ markup ≤ (11 : ℚ)/10 then -5
      else 0
    else 0)
  let a1 ← pyFloat (data.get "amount" (.num 0))
  let order_amount ← if a1 = 0 then pyFloat (data.get "order_amount" (.num 0)) else Except.ok a1
  let score := score +
    (if price > 0 ∧ order_amount > price then
      let order_markup := order_amount / price
      if order_markup ≥ 10 then 60
      else if order_markup ≥ 5 then 45
      else if order_markup ≥ 2 then 30
      else 0
    else 0)
  let shipping_address := strLower (pyStr (data.get "shipping_address" (.str "")))
  let billing_address := strLower (pyStr (data.get "billing_address" (.str "")))
  let score := score +
    (if shipping_address ≠ "" ∧ billing_address ≠ "" ∧
        removeSpaces shipping_address ≠ removeSpaces billing_address then 30
     else if shipping_address ≠ "" ∧ billing_address ≠ "" ∧
        shipping_address = billing_address then -5
     else 0)
  let payment_method := strLower (pyStr (data.get "payment_method" (.str "")))
  let score := score +
    (if ["crypto", "gift_card", "prepaid", "other"].any (fun m => strIn m payment_method) then 20
     else if payment_method = "credit_card" ∨ payment_method = "debit_card" then -5
     else 0)
  let ip_address := strLower (pyStr (data.get "ip_address" (.str "")))
  let score := score +
    (if strIn "vpn" ip_address || strIn "tor" ip_address || strIn "proxy" ip_address then 25
     else if strIn "unknown" ip_address || ip_address = "" then 10
     else 0)
  let score := score + (if pyTruthy (data.get "email_verified" (.bool false)) then -5 else 15)
  let reviews := data.get "reviews" (.list [])
  let score := score +
    (match reviews with
     | .list rs =>
       (if rs.length = 0 then 20 else if rs.length < 5 then 10 else 0) +
       (let negative_count :=
          (rs.filter (fun r => NEGATIVE_KEYWORDS.any (fun kw => strIn kw (strLower (pyStr r))))).length
        if negative_count > 0 then ((min 40 (negative_count * 15) : ℕ) : ℚ)
        else if rs.length > 0 ∧ (rs.take 5).all
            (fun r => strIn "excellent" (strLower (pyStr r)) || strIn "5" (pyStr r)) then 30
        else 0)
     | .str s =>
       if s = "" ∨ strLower s = "none" then 20
       else
         let negative_count := (NEGATIVE_KEYWORDS.filter (fun kw => strIn kw (strLower s))).length
         if negative_count > 0 then ((min 40 (negative_count * 10) : ℕ) : ℚ) else 0
     | _ => 0)
  let score := score +
    (if ¬ pyTruthy (data.get "seller_verified" (.bool false)) ∧ seller_age < 30 then 15 else 0)
  let shipping := strLower (pyStr (data.get "shipping_location" (.str "")))
  let score := score +
    (if strIn "unknown" shipping || shipping = "" then 25
     else if ["united states", "canada", "united kingdom", "germany", "france"].any
        (fun c => shipping = c) then -5
     else 0)
  let product_details := strLower (pyStr (data.get "product_details" (.str "")))
  let description := strLower (pyStr (data.get "description" (.str product_details)))
  let score := score +
    (if strIn "stock photo" description ∨ strIn "vague" description ∨
        description.length < 20 then 15
     else if strIn "authentic" description || strIn "verified" description then -5
     else 0)
  Except.ok score

/-- `score_ecommerce_fraud`: the running total with the final
`max(0, min(100, score))` clamp. -/
def score_ecommerce_fraud (data : Record) : Except PyErr ℚ :=
  (ecommerce_running_total data).map clamp0100

/-! ### supply-chain chain (`supply_chain_chain.py`)

The field reads are collected up front (errors propagate in source order:
`price_variance`, `quality_issues` and `delivery_variance` are unguarded in
the source) and the eleven scoring blocks become a list of score-update
functions, applied left to right, so that the order dependence of the final
legitimate-keyword block is explicit. -/

structure SupplyVals where
  payment_terms : String
  supplier_age : ℤ
  price_variance : ℚ
  order_details : String
  has_kickback : Bool
  quality_issues : ℤ
  documentation_complete : Bool
  regulatory_compliance : Bool
  delivery_variance : ℚ
  order_amount : ℚ

def supplyExtract (data : Record) : Except PyErr SupplyVals := do
  let payment_terms := strUpper (pyStr (data.get "payment_terms" (.str "")))
  let supplier_age := pyIntOr (data.get "supplier_age_days" (.num 365)) 365
  let pv ← pyFloat (data.get "price_variance" (.num 0))
  let order_details := strLower (pyStr (data.get "order_details" (.str "")))
  let has_kickback := ["kickback", "personal relationship", "bribery", "above market"].any
    (fun f => strIn f order_details)
  let quality_issues ← pyInt (data.get "quality_issues" (.num 0))
  let documentation_complete := pyTruthy (data.get "documentation_complete" (.bool true))
  let regulatory_compliance := pyTruthy (data.get "regulatory_compliance" (.bool true))
  let dv ← pyFloat (data.get "delivery_variance" (.num 0))
  let order_amount := pyFloatOr (data.get "order_amount" (.num 0)) 0
  Except.ok ⟨payment_terms, supplier_age, absQ pv, order_details, has_kickback,
    quality_issues, documentation_complete, regulatory_compliance, absQ dv, order_amount⟩

def critical_flags : List String :=
  ["kickback", "bribery", "corruption", "personal relationship", "conflict of interest",
   "under the table"]

def supply_high_risk_flags : List String :=
  ["ghost", "unverified", "no references", "no online presence", "suspicious", "fraud",
   "inferior quality", "overpriced"]

def supply_medium_risk_flags : List String :=
  ["unusual", "irregular", "questionable", "concerning"]

def supply_legitimate_keywords : List String :=
  ["established", "regular", "verified", "5-year", "history", "legitimate",
   "competitive pricing"]

/-- The final block of `score_supply_chain_fraud`: subtract 10 for
legitimate keywords, but only when the running total is still below 30. -/
def legitFactor (v : SupplyVals) : ℚ → ℚ := fun score =>
  if supply_legitimate_keywords.any (fun kw => strIn kw v.order_details) ∧ score < 30 then
    score - 10
  else score

/-- The first ten scoring blocks of `score_supply_chain_fraud`, in source
order, as score-update functions. -/
def supplyFactorsFront (v : SupplyVals) : List (ℚ → ℚ) :=
  [fun score => score +
     (if v.payment_terms = "ADVANCE" then 40 else if v.payment_terms = "COD" then 10 else 0),
   fun score => score +
     (if v.supplier_age < 1 then 50
      else if v.supplier_age < 7 then 45
      else if v.supplier_age < 30 then 30
      else if v.supplier_age < 90 then 15
      else if v.supplier_age ≥ 1095 then -10
      else if v.supplier_age ≥ 730 then -5
      else 0),
   fun score => score +
     (if v.price_variance > 40 then (if v.has_kickback then 40 else 35)
      else if v.price_variance > 30 then (if v.has_kickback then 35 else 30)
      else if v.price_variance > 20 then 20
      else if v.price_variance > 10 then 10
      else if v.price_variance < 5 then -5
      else 0),
   fun score => score +
     (if v.quality_issues > 5 then 35
      else if v.quality_issues > 2 then (if v.has_kickback then 30 else 25)
      else if v.quality_issues > 0 then (if v.has_kickback then 20 else 10)
      else 0),
   fun score => score +
     (if v.documentation_complete then 0 else 30) +
     (if v.regulatory_compliance then 0 else 35) +
     (if v.documentation_complete ∧ v.regulatory_compliance then -5 else 0),
   fun score => score +
     (if v.delivery_variance > 80 then 25
      else if v.delivery_variance > 50 then 20
      else if v.delivery_variance > 20 then 10
      else if v.delivery_variance < 5 then -5
      else 0),
   fun score => score +
     (if v.order_amount > 100000 ∧ v.supplier_age < 30 then 20
      else if v.order_amount > 200000 then 10
      else 0),
   fun score => score +
     (if critical_flags.any (fun f => strIn f v.order_details) then 40 else 0),
   fun score => score +
     (if supply_high_risk_flags.any (fun f => strIn f v.order_details) then 25 else 0),
   fun score => score +
     (if supply_medium_risk_flags.any (fun f => strIn f v.order_details) then 15 else 0)]

def supplyFactors (v : SupplyVals) : List (ℚ → ℚ) :=
  supplyFactorsFront v ++ [legitFactor v]

/-- Apply score-update blocks left to right, starting from `score = 0.0`. -/
def applyFactors (fs : List (ℚ → ℚ)) (s : ℚ) : ℚ := fs.foldl (fun s f => f s) s

def score_supply_chain_fraud (data : Record) : Except PyErr ℚ :=
  (supplyExtract data).map (fun v => clamp0100 (applyFactors (supplyFactors v) 0))

/-! ### sector dispatch and RAG rescaling (`chains/__init__.py`) -/

def SCORING_CHAINS (sector : Sector) (data : Record) : Except PyErr ℚ :=
  match sector with
  | .banking => .ok (score_banking_fraud data)
  | .medical => .ok (score_medical_fraud data)
  | .ecommerce => score_ecommerce_fraud data
  | .supply_chain => score_supply_chain_fraud data

def rag_legitimate_keywords : List String :=
  ["low risk", "legitimate", "normal", "standard", "established", "verified", "clean"]

def rag_high_risk_keywords : List String :=
  ["high risk", "fraud", "critical", "suspicious", "anomaly"]

def rag_medium_risk_keywords : List String :=
  ["medium risk", "warning", "unusual", "irregular"]

/-- The RAG-context rescaling pass of `calculate_fraud_score`. -/
def rag_adjust (rag_context : String) (score : ℚ) : ℚ :=
  if rag_context ≠ "" ∧ rag_context ≠ "No similar patterns found." then
    let rag_lower := strLower rag_context
    if rag_legitimate_keywords.any (fun kw => strIn kw rag_lower) ∧ score < 30 then
      max 0 (score * ((8 : ℚ)/10))
    else if score > 30 then
      if rag_high_risk_keywords.any (fun kw => strIn kw rag_lower) then
        min 100 (score * ((11 : ℚ)/10))
      else if rag_medium_risk_keywords.any (fun kw => strIn kw rag_lower) then
        min 100 (score * ((21 : ℚ)/20))
      else score
    else score
  else score

/-- Python `round(x, 1)` (round half to even on the first decimal). -/
def pyRound1 (x : ℚ) : ℚ :=
  let y := 10 * x
  let f : ℤ := ⌊y⌋
  let r : ℤ :=
    if y - f < 1/2 then f
    else if y - f > 1/2 then f + 1
    else if f % 2 = 0 then f else f + 1
  (r : ℚ) / 10

/-- `calculate_fraud_score` of `chains/__init__.py` (sector dispatch, RAG
rescaling, `round(score, 1)`). -/
def calculate_fraud_score (sector : Sector) (data : Record) (rag_context : String) :
    Except PyErr ℚ := do
  let score ← SCORING_CHAINS sector data
  Except.ok (pyRound1 (rag_adjust rag_context score))

/-! ## Score results -/

/-- The fields of the result dicts that the claims are about (`reasoning` is
presentation-only prose and is not modelled). -/
structure FraudResult where
  fraud_score : ℚ
  risk_level : Risk
  risk_factors : List String
  model_used : Option String
  cost_saved : Bool
deriving DecidableEq

/-- `analyze_fraud_rule_based` of `core/router.py`: deterministic score with
an empty RAG context, re-derived risk level, fixed risk-factor flag. -/
def analyze_fraud_rule_based (sector : Sector) (data : Record) :
    Except PyErr FraudResult := do
  let fraud_score ← calculate_fraud_score sector data ""
  Except.ok { fraud_score := fraud_score, risk_level := get_risk_level fraud_score,
              risk_factors := ["Rule-based analysis"], model_used := Option.none,
              cost_saved := false }

/-! ## Pre-check engine (`app/llm/prechecks.py`)

`check_extreme_fraud_patterns`: the sector branch first sets the tier base
score and risk factors, the universal negative-value loop then raises the
base score, and the result is returned when the base score reaches 70.  The
interpolated numbers inside the risk-factor strings are dropped (only the
number of factors feeds the score); the e-commerce branch's `except` clause
lists only `ValueError` and `ZeroDivisionError`, so a `TypeError` from
`float(...)` propagates, while the other sector branches catch both
`ValueError` and `TypeError`. -/

def extremeTier : Sector → Record → Except PyErr (ℚ × List String)
  | .ecommerce, data =>
    match pyFloat (data.get "listed_price" (.num 0)) with
    | .error .typeError => .error .typeError
    | .error .valueError => .ok (0, [])
    | .ok listed_price =>
      match pyFloat (data.get "market_price" (.num 0)) with
      | .error .typeError => .error .typeError
      | .error .valueError => .ok (0, [])
      | .ok market_price =>
        .ok (if market_price > 0 ∧ listed_price > 0 then
          let markup := listed_price / market_price
          if markup > 10 then
            (95, ["Extreme price markup", "Pricing scam/manipulation detected"])
          else if markup > 5 then (85, ["High price markup"])
          else if markup > 2 then (70, ["Suspicious price markup"])
          else (0, [])
        else (0, []))
  | .banking, data =>
    .ok (match pyFloat (data.get "amount" (.num 0)),
           pyInt (data.get "account_age_days" (.num 365)) with
      | .ok amount, .ok account_age =>
        if amount > 1000000 ∧ account_age < 30 then (95, ["Extreme amount from new account"])
        else if amount > 500000 ∧ account_age < 90 then (85, ["High amount from young account"])
        else if amount > 10000000 then (90, ["Extreme transaction amount"])
        else (0, [])
      | _, _ => (0, []))
  | .medical, data =>
    .ok (match pyFloat (data.get "claim_amount" (.num 0)) with
      | .ok claim_amount =>
        if claim_amount > 1000000 then (95, ["Extreme claim amount"])
        else if claim_amount > 500000 then (85, ["Very high claim amount"])
        else (0, [])
      | .error _ => (0, []))
  | .supply_chain, data =>
    .ok (match pyFloat (data.get "price_variance" (.num 0)) with
      | .ok price_variance =>
        if price_variance > 500 then (90, ["Extreme price variance"])
        else if price_variance > 300 then (80, ["High price variance"])
        else (0, [])
      | .error _ => (0, []))

def negative_value_fields : List String :=
  ["amount", "claim_amount", "listed_price", "market_price", "order_amount"]

/-- One iteration of the universal negative-value loop (guarded by
`except (ValueError, TypeError)`). -/
def negLoopStep (data : Record) (acc : ℚ × List String) (field : String) : ℚ × List String :=
  match pyFloat (data.get field (.num 0)) with
  | .ok value =>
    if value < 0 then (max acc.1 85, acc.2 ++ ["Impossible negative value: " ++ field])
    else acc
  | .error _ => acc

def negLoop (data : Record) (acc : ℚ × List String) : ℚ × List String :=
  negative_value_fields.foldl (negLoopStep data) acc

def check_extreme_fraud_patterns (sector : Sector) (data : Record) :
    Except PyErr (Option FraudResult) := do
  let tier ← extremeTier sector data
  let bs := negLoop data tier
  if bs.1 ≥ 70 ∧ bs.2.length > 0 then
    let fraud_score := min (bs.1 + (bs.2.length : ℚ) * 2) 100
    Except.ok (Option.some
      { fraud_score := fraud_score,
        risk_level := if fraud_score ≥ 85 then .critical else .high,
        risk_factors := bs.2,
        model_used := Option.some "Extreme Fraud Pre-Check (Deterministic)",
        cost_saved := true })
  else Except.ok Option.none

/-! ## OFAC pre-check (`app/llm/ofac.py`, `app/llm/config.py`) -/

def OFAC_SANCTIONED_COUNTRIES : List String :=
  ["cuba", "iran", "north korea", "syria", "crimea", "donetsk", "luhansk",
   "russia", "belarus", "venezuela", "myanmar", "burma", "sudan", "south sudan",
   "libya", "yemen", "somalia", "central african republic", "democratic republic of congo",
   "congo", "zimbabwe", "mali", "burkina faso", "niger",
   "nigeria", "ghana", "cameroon", "ivory coast", "senegal", "togo", "benin",
   "philippines", "indonesia", "malaysia", "thailand", "vietnam", "pakistan",
   "bangladesh", "romania", "bulgaria", "ukraine", "moldova", "albania",
   "serbia", "bosnia", "macedonia", "montenegro", "kosovo",
   "west africa", "east africa", "balkans", "eastern europe"]

def check_ofac_country (location_str : String) : Bool × String :=
  if location_str = "" then (false, "")
  else
    let location_lower := strLower location_str
    match OFAC_SANCTIONED_COUNTRIES.find? (fun country => strIn country location_lower) with
    | Option.some country => (true, pyTitle country)
    | Option.none => (false, "")

def check_ofac_in_data (data : Record) (location_fields : List String) : Bool × List String :=
  let countries_found := location_fields.foldl (fun acc field =>
    let field_value := data.get field (.str "")
    if pyTruthy field_value then
      let r := check_ofac_country (pyStr field_value)
      if r.1 ∧ ¬ acc.contains r.2 then acc ++ [r.2] else acc
    else acc) []
  (countries_found.length > 0, countries_found)

def SECTOR_LOCATION_FIELDS : Sector → List String
  | .banking => ["source_country", "destination_country", "location"]
  | .medical => ["provider_location", "patient_location", "billing_address", "service_location"]
  | .ecommerce => ["shipping_location", "shipping_address", "billing_address", "origin_country"]
  | .supply_chain =>
    ["supplier_location", "supplier_country", "origin_country", "shipping_location",
     "billing_address"]

/-! ## Provider configuration (`app/llm/config.py`, `SECTOR_MODELS`) -/

structure ProviderCandidate where
  provider : String
  model : String
deriving DecidableEq

def SECTOR_MODELS_two_stage : Sector → Bool
  | .medical => true
  | _ => false

/-- The ordered candidate list (`[primary] + fallbacks`) built by
`analyze_fraud` for the single-stage path; medical dispatches to the
two-stage path before this list is consulted. -/
def sector_candidates : Sector → List ProviderCandidate
  | .banking =>
    [⟨"hf", "Qwen/Qwen2.5-72B-Instruct"⟩,
     ⟨"openrouter", "nvidia/nemotron-3-nano-30b-a3b:free"⟩,
     ⟨"openrouter", "meta-llama/llama-3.1-70b-instruct:free"⟩]
  | .medical => []
  | .ecommerce =>
    [⟨"openrouter", "nvidia/nemotron-nano-12b-v2-vl:free"⟩,
     ⟨"hf", "Qwen/Qwen2.5-72B-Instruct"⟩,
     ⟨"openrouter", "nvidia/nemotron-3-nano-30b-a3b:free"⟩]
  | .supply_chain =>
    [⟨"openrouter", "nvidia/nemotron-nano-12b-v2-vl:free"⟩,
     ⟨"hf", "Qwen/Qwen2.5-72B-Instruct"⟩,
     ⟨"openrouter", "nvidia/nemotron-3-nano-30b-a3b:free"⟩]

/-- The `fallbacks` entry of `SECTOR_MODELS` (used on its own by the
two-stage failure path). -/
def sector_fallbacks : Sector → List ProviderCandidate
  | .banking =>
    [⟨"openrouter", "nvidia/nemotron-3-nano-30b-a3b:free"⟩,
     ⟨"openrouter", "meta-llama/llama-3.1-70b-instruct:free"⟩]
  | .medical => [⟨"openrouter", "nvidia/nemotron-3-nano-30b-a3b:free"⟩]
  | .ecommerce =>
    [⟨"hf", "Qwen/Qwen2.5-72B-Instruct"⟩,
     ⟨"openrouter", "nvidia/nemotron-3-nano-30b-a3b:free"⟩]
  | .supply_chain =>
    [⟨"hf", "Qwen/Qwen2.5-72B-Instruct"⟩,
     ⟨"openrouter", "nvidia/nemotron-3-nano-30b-a3b:free"⟩]

def sector_age_field : Sector → Option String
  | .banking => Option.some "account_age_days"
  | .ecommerce => Option.some "seller_age_days"
  | .supply_chain => Option.some "supplier_age_days"
  | .medical => Option.none

/-! ## Orchestrator control flow (`app/llm/orchestrator.py`)

The network helpers `_try_hf_model` / `_try_openrouter_model` /
`_try_hf_space_model` are abstracted as an oracle from (provider, model) to
the parsed outcome of the attempt (`none` when every protocol and retry
fails); `_try_vertex_model` always returns `None` in the source and is
modelled directly.  The run function records an event trace: which
pre-checks were evaluated and which provider models were called. -/

inductive OEvent where
  | precheckExtreme
  | precheckOfac
  | modelCall (provider model : String)
deriving DecidableEq

def OEvent.isModelCall : OEvent → Bool
  | .modelCall _ _ => true
  | _ => false

/-- Outcome oracle for the network-calling provider helpers. -/
def EnvF := String → String → Option FraudResult

/-- Python `data.get(age_field, 365) < 30`: an uncoerced comparison that
raises `TypeError` when the stored value does not compare with an int. -/
def pyLt30 : PyVal → Except PyErr Bool
  | .num q => .ok (q < 30)
  | .bool b => .ok ((if b then (1 : ℚ) else 0) < 30)
  | _ => .error .typeError

/-- The additional red flags collected after an OFAC match (orchestrator
lines 127-159): VPN/proxy/TOR, sector-specific missing verification, young
account/seller/supplier age. -/
def ofac_red_flags (sector : Sector) (data : Record) : Except PyErr (List String) :=
  let ip_address := strLower (pyStr (data.get "ip_address" (.str "")))
  let l1 := if strIn "vpn" ip_address || strIn "proxy" ip_address || strIn "tor" ip_address
    then ["VPN/Proxy/TOR detected"] else []
  let l2 :=
    match sector with
    | .banking => if pyTruthy (data.get "kyc_verified" (.bool false)) then [] else ["Unverified KYC"]
    | .ecommerce =>
      if pyTruthy (data.get "email_verified" (.bool false)) then [] else ["Unverified email"]
    | .supply_chain =>
      if pyTruthy (data.get "documentation_complete" (.bool false)) then []
      else ["Missing documentation"]
    | .medical => []
  match (match sector_age_field sector with
         | Option.some f => pyLt30 (data.get f (.num 365))
         | Option.none => Except.ok false) with
  | .error e => .error e
  | .ok ageFlag =>
    let l3 := if ageFlag then ["New entity (< 30 days)"] else []
    .ok (l1 ++ l2 ++ l3)

/-- The OFAC short-circuit of `analyze_fraud` (orchestrator lines 122-188):
with an OFAC country match and at least 2 additional red flags, return the
cost-saving result immediately; otherwise proceed to the model call. -/
def ofac_precheck (sector : Sector) (data : Record) : Except PyErr (Option FraudResult) := do
  let r := check_ofac_in_data data (SECTOR_LOCATION_FIELDS sector)
  if r.1 then
    let flags ← ofac_red_flags sector data
    if flags.length ≥ 2 then
      let fraud_score : ℚ := min (75 + min ((flags.length : ℚ) * 5) 20) 100
      Except.ok (Option.some
        { fraud_score := fraud_score,
          risk_level := if fraud_score < 85 then .high else .critical,
          risk_factors := "OFAC sanctioned/high-risk country" :: flags,
          model_used := Option.some "OFAC Pre-Check (Cost-Efficient)",
          cost_saved := true })
    else Except.ok Option.none
  else Except.ok Option.none

/-- `_format_model_name` display-name mapping. -/
def format_display_name (model_name : String) : String :=
  if strIn "Qwen2.5-72B" model_name then "Qwen2.5-72B-Instruct"
  else if strIn "Qwen2.5-32B" model_name then "Qwen2.5-32B-Instruct"
  else if strIn "nemotron-nano-12b-v2-vl" (strLower model_name) then "Nemotron-2 (12B VL)"
  else if strIn "nemotron-3-nano-30b" (strLower model_name) then "Nemotron-3-Nano-30B"
  else if strIn "deepseek-v3" (strLower model_name) then "DeepSeek-V3"
  else if strIn "deepseek-r1" (strLower model_name) then "DeepSeek-R1"
  else if strIn "llama-3.1-70b" (strLower model_name) then "Llama-3.1-70B"
  else if strIn "medgemma" (strLower model_name) then
    (if strIn "4b" (strLower model_name) then "MedGemma-4B-IT" else "MedGemma")
  else model_name

def provider_display (p : String) : String :=
  if p = "hf" then "HF Pro"
  else if p = "openrouter" then "OpenRouter FREE"
  else if p = "vertex" then "Vertex AI"
  else strUpper p

def format_model_name (model_name provider : String) (is_fallback : Bool)
    (fallback_number : ℕ) : String :=
  if is_fallback then
    format_display_name model_name ++ " (Fallback #" ++ toString fallback_number ++ " - " ++
      provider_display provider ++ ")"
  else format_display_name model_name ++ " (" ++ provider_display provider ++ ")"

/-- The candidate loop of `analyze_fraud` (orchestrator lines 197-231).
Candidates with an empty provider or model are skipped; `hf`/`openrouter`
candidates consult the oracle; `vertex` and unknown providers yield `None`
without a network call. -/
def candidate_loop (envF : EnvF) : List ProviderCandidate → ℕ → List OEvent × Option FraudResult
  | [], _ => ([], Option.none)
  | c :: rest, idx =>
    if c.provider = "" ∨ c.model = "" then candidate_loop envF rest (idx + 1)
    else if c.provider = "hf" ∨ c.provider = "openrouter" then
      match envF c.provider c.model with
      | Option.some result =>
        ([OEvent.modelCall c.provider c.model],
          Option.some { result with
            model_used :=
              Option.some (format_model_name c.model c.provider (idx > 0) idx) })
      | Option.none =>
        let r := candidate_loop envF rest (idx + 1)
        (OEvent.modelCall c.provider c.model :: r.1, r.2)
    else candidate_loop envF rest (idx + 1)

/-- Characters after the last '/' (Python `model_name.split('/')[-1]`). -/
def lastSegment (s : String) : String :=
  String.mk ((splitHead '/' s.data.reverse).reverse)

/-- The fallback loop of `_try_fallback_models` (orchestrator lines 788-804). -/
def fallback_loop (envF : EnvF) : List ProviderCandidate → ℕ → List OEvent × Option FraudResult
  | [], _ => ([], Option.none)
  | c :: rest, idx =>
    if c.provider = "hf" ∨ c.provider = "openrouter" then
      match envF c.provider c.model with
      | Option.some result =>
        ([OEvent.modelCall c.provider c.model],
          Option.some { result with
            model_used :=
              Option.some (lastSegment c.model ++ " (Fallback #" ++ toString idx ++ ")") })
      | Option.none =>
        let r := fallback_loop envF rest (idx + 1)
        (OEvent.modelCall c.provider c.model :: r.1, r.2)
    else
      fallback_loop envF rest (idx + 1)

/-- The fixed result returned when the two-stage pipeline and all its
fallbacks fail (orchestrator lines 806-815). -/
def all_failed_result : FraudResult :=
  { fraud_score := 50, risk_level := .medium,
    risk_factors := ["All LLM models unavailable"],
    model_used := Option.some "None (All Failed)", cost_saved := false }

def try_fallback_models (sector : Sector) (envF : EnvF) : List OEvent × FraudResult :=
  let r := fallback_loop envF (sector_fallbacks sector) 1
  match r.2 with
  | Option.some res => (r.1, res)
  | Option.none => (r.1, all_failed_result)

def stage1_candidate : ProviderCandidate := ⟨"hf_space", "ironjeffe/google-medgemma-4b-it"⟩
def stage2_candidate : ProviderCandidate := ⟨"hf", "Qwen/Qwen2.5-72B-Instruct"⟩

/-- Stage-1 oracle: the clinical risk factors of a successful clinical
validation, or `none` on failure.  The clinical score and reasoning feed
only the stage-2 prompt text. -/
def EnvC := Option (List String)

/-- `_analyze_two_stage` (orchestrator lines 660-779): stage 1, then stage 2
with stage-1 output in its prompt; either failure falls back to the
single-stage fallback list; success combines both stages' risk factors with
stage tags and re-derives the risk level from the stage-2 score. -/
def analyze_two_stage (sector : Sector) (envF : EnvF) (envC : EnvC) :
    List OEvent × Except PyErr FraudResult :=
  let ev1 := OEvent.modelCall stage1_candidate.provider stage1_candidate.model
  match envC with
  | Option.none =>
    let r := try_fallback_models sector envF
    (ev1 :: r.1, .ok r.2)
  | Option.some clinical_flags =>
    let ev2 := OEvent.modelCall stage2_candidate.provider stage2_candidate.model
    match envF stage2_candidate.provider stage2_candidate.model with
    | Option.none =>
      let r := try_fallback_models sector envF
      (ev1 :: ev2 :: r.1, .ok r.2)
    | Option.some stage2_result =>
      ([ev1, ev2],
        .ok { fraud_score := stage2_result.fraud_score,
              risk_level := get_risk_level stage2_result.fraud_score,
              risk_factors :=
                clinical_flags.map (fun f => "[Clinical] " ++ f) ++
                  stage2_result.risk_factors.map (fun f => "[Fraud] " ++ f),
              model_used := Option.some "Two-Stage: MedGemma-4B-IT → Qwen2.5-72B",
              cost_saved := false })

/-- `LLMClient.analyze_fraud`: two-stage dispatch for medical, then the
extreme-value pre-check, then the OFAC pre-check, then the candidate loop,
then the rule-based fallback, with the event trace of what ran. -/
def analyze_fraud (sector : Sector) (data : Record) (envF : EnvF) (envC : EnvC) :
    List OEvent × Except PyErr FraudResult :=
  if SECTOR_MODELS_two_stage sector then
    analyze_two_stage sector envF envC
  else
    match check_extreme_fraud_patterns sector data with
    | .error e => ([OEvent.precheckExtreme], .error e)
    | .ok (Option.some extreme_fraud) => ([OEvent.precheckExtreme], .ok extreme_fraud)
    | .ok Option.none =>
      match ofac_precheck sector data with
      | .error e => ([OEvent.precheckExtreme, OEvent.precheckOfac], .error e)
      | .ok (Option.some r) => ([OEvent.precheckExtreme, OEvent.precheckOfac], .ok r)
      | .ok Option.none =>
        let lr := candidate_loop envF (sector_candidates sector) 0
        match lr.2 with
        | Option.some result =>
          (OEvent.precheckExtreme :: OEvent.precheckOfac :: lr.1, .ok result)
        | Option.none =>
          (OEvent.precheckExtreme :: OEvent.precheckOfac :: lr.1,
            analyze_fraud_rule_based sector data)

/-! ## Response parser (`app/llm/parsing.py`, `_parse_fraud_response`)

Only the score extraction (lines 140-184) and the degradation warning are
modelled; the reasoning/risk-factor text cleaning is presentation-only.  The
regex searches are implemented as leftmost-match scanners with the pattern
semantics of the source: the optional-quote and whitespace steps of these
patterns are deterministic, so no backtracking is needed. -/

/-- Case-insensitive literal match: if the lowercase pattern begins the
case-folded text, return the remainder. -/
def matchLitCI : List Char → List Char → Option (List Char)
  | [], l => Option.some l
  | _ :: _, [] => Option.none
  | p :: ps, c :: cs => if c.toLower = p then matchLitCI ps cs else Option.none

def dropWs (l : List Char) : List Char := l.dropWhile isSpaceCh

/-- Greedy `\d+`: value of the maximal digit run and the remainder. -/
def matchDigits (l : List Char) : Option (ℕ × List Char) :=
  let ds := l.takeWhile Char.isDigit
  if ds = [] then Option.none
  else Option.some (readNatDigits ds 0, l.dropWhile Char.isDigit)

/-- Optional quote character (regex `["']?`). -/
def skipQuote (l : List Char) : List Char :=
  match l with
  | c :: t => if c = '"' ∨ c = Char.ofNat 39 then t else l
  | [] => l

/-- Leftmost-match search: try the matcher at every start position. -/
def searchScan {α : Type} (m : List Char → Option α) : List Char → Option α
  | [] => m []
  | l@(_ :: t) =>
    match m l with
    | Option.some v => Option.some v
    | Option.none => searchScan m t

/-- Matcher for `FRAUD[_\s]SCORE["']?\s*:\s*(\d+)` at one position. -/
def matchFraudScoreAt (l : List Char) : Option ℕ := do
  let r1 ← matchLitCI "fraud".data l
  match r1 with
  | c :: r2 =>
    if c = '_' ∨ isSpaceCh c then do
      let r3 ← matchLitCI "score".data r2
      match dropWs (skipQuote r3) with
      | ':' :: r6 => (matchDigits (dropWs r6)).map (fun x => x.1)
      | _ => Option.none
    else Option.none
  | [] => Option.none

def search_fraud_score_label (text : String) : Option ℕ :=
  searchScan matchFraudScoreAt text.data

/-- Matcher for `(\d+)\s*%` at one position. -/
def matchPctAt (l : List Char) : Option (ℕ × List Char) := do
  let (v, r1) ← matchDigits l
  match dropWs r1 with
  | '%' :: r3 => Option.some (v, r3)
  | _ => Option.none

/-- `re.findall(r'(\d+)\s*%', text)`: non-overlapping left-to-right scan. -/
def pctScan : ℕ → List Char → List ℕ
  | 0, _ => []
  | _ + 1, [] => []
  | fuel + 1, l@(_ :: t) =>
    match matchPctAt l with
    | Option.some (v, rest) => v :: pctScan fuel rest
    | Option.none => pctScan fuel t

def find_percent_scores (text : String) : List ℕ := pctScan text.data.length text.data

/-- Matcher for `["']?score["']?\s*:\s*(\d+)` at one position. -/
def matchScoreColonAt (l : List Char) : Option ℕ := do
  let r2 ← matchLitCI "score".data (skipQuote l)
  match dropWs (skipQuote r2) with
  | ':' :: r5 => (matchDigits (dropWs r5)).map (fun x => x.1)
  | _ => Option.none

/-- Matcher for `score\s+of\s+(\d+)` at one position. -/
def matchScoreOfAt (l : List Char) : Option ℕ := do
  let r1 ← matchLitCI "score".data l
  if r1.takeWhile isSpaceCh = [] then Option.none
  else do
    let r3 ← matchLitCI "of".data (r1.dropWhile isSpaceCh)
    if r3.takeWhile isSpaceCh = [] then Option.none
    else (matchDigits (r3.dropWhile isSpaceCh)).map (fun x => x.1)

/-- Matcher for `score\s+(\d+)` at one position. -/
def matchScoreWsAt (l : List Char) : Option ℕ := do
  let r1 ← matchLitCI "score".data l
  if r1.takeWhile isSpaceCh = [] then Option.none
  else (matchDigits (r1.dropWhile isSpaceCh)).map (fun x => x.1)

/-- The pattern loop of lines 172-178: first occurrence of each pattern in
order, accepted only when the candidate lies in [0, 100]. -/
def score_patterns_extract (text : String) : Option ℕ :=
  let tryPat := fun (m : List Char → Option ℕ) =>
    match searchScan m text.data with
    | Option.some candidate => if candidate ≤ 100 then Option.some candidate else Option.none
    | Option.none => Option.none
  match tryPat matchScoreColonAt with
  | Option.some v => Option.some v
  | Option.none =>
    match tryPat matchScoreOfAt with
    | Option.some v => Option.some v
    | Option.none => tryPat matchScoreWsAt

/-! ### the JSON branch (lines 140-158)

The search `(\{.*?"fraud_score".*?\})` captures from the first opening brace
through the first closing brace after the first `"fraud_score"` literal; the
code-fenced variants of the pattern list capture the same object when they
apply.  `json.loads` on the captured group is modelled by a small JSON
parser (string escapes and exponents are not supported; no claim depends on
them). -/

inductive JsonVal where
  | num (q : ℚ)
  | str (s : String)
  | bool (b : Bool)
  | null
  | arr (xs : List JsonVal)
  | obj (kvs : List (String × JsonVal))

def lbrace : Char := Char.ofNat 123
def rbrace : Char := Char.ofNat 125

def parseJsonString : List Char → Option (String × List Char)
  | c :: t =>
    if c = '"' then
      let body := t.takeWhile (fun ch => ch ≠ '"')
      match t.dropWhile (fun ch => ch ≠ '"') with
      | _ :: rest => Option.some (String.mk body, rest)
      | [] => Option.none
    else Option.none
  | [] => Option.none

def parseJsonNumberCore (l : List Char) : Option (ℚ × List Char) :=
  let ds := l.takeWhile Char.isDigit
  if ds = [] then Option.none
  else
    let r1 := l.dropWhile Char.isDigit
    match r1 with
    | '.' :: t2 =>
      let fs := t2.takeWhile Char.isDigit
      if fs = [] then Option.some ((readNatDigits ds 0 : ℚ), r1)
      else
        Option.some ((readNatDigits ds 0 : ℚ) +
          (readNatDigits fs 0 : ℚ) / ((10 : ℚ) ^ fs.length), t2.dropWhile Char.isDigit)
    | _ => Option.some ((readNatDigits ds 0 : ℚ), r1)

def parseJsonNumber : List Char → Option (ℚ × List Char)
  | '-' :: t => (parseJsonNumberCore t).map (fun x => (-x.1, x.2))
  | t => parseJsonNumberCore t

mutual

def parseJsonVal : ℕ → List Char → Option (JsonVal × List Char)
  | 0, _ => Option.none
  | fuel + 1, l =>
    match dropWs l with
    | [] => Option.none
    | l1@(c :: t) =>
      if c = '"' then (parseJsonString l1).map (fun x => (JsonVal.str x.1, x.2))
      else if c = lbrace then
        match dropWs t with
        | c2 :: t2 =>
          if c2 = rbrace then Option.some (JsonVal.obj [], t2)
          else (parseJsonObjItems fuel t).map (fun x => (JsonVal.obj x.1, x.2))
        | [] => Option.none
      else if c = '[' then
        match dropWs t with
        | c2 :: t2 =>
          if c2 = ']' then Option.some (JsonVal.arr [], t2)
          else (parseJsonArrItems fuel t).map (fun x => (JsonVal.arr x.1, x.2))
        | [] => Option.none
      else if leadsWith "true".data l1 then Option.some (JsonVal.bool true, l1.drop 4)
      else if leadsWith "false".data l1 then Option.some (JsonVal.bool false, l1.drop 5)
      else if leadsWith "null".data l1 then Option.some (JsonVal.null, l1.drop 4)
      else (parseJsonNumber l1).map (fun x => (JsonVal.num x.1, x.2))

def parseJsonObjItems : ℕ → List Char → Option (List (String × JsonVal) × List Char)
  | 0, _ => Option.none
  | fuel + 1, l => do
    let (k, r1) ← parseJsonString (dropWs l)
    match dropWs r1 with
    | ':' :: r3 => do
      let (v, r4) ← parseJsonVal fuel r3
      match dropWs r4 with
      | ch :: r6 =>
        if ch = ',' then
          (parseJsonObjItems fuel r6).map (fun x => ((k, v) :: x.1, x.2))
        else if ch = rbrace then Option.some ([(k, v)], r6)
        else Option.none
      | [] => Option.none
    | _ => Option.none

def parseJsonArrItems : ℕ → List Char → Option (List JsonVal × List Char)
  | 0, _ => Option.none
  | fuel + 1, l => do
    let (v, r1) ← parseJsonVal fuel l
    match dropWs r1 with
    | ch :: r3 =>
      if ch = ',' then (parseJsonArrItems fuel r3).map (fun x => (v :: x.1, x.2))
      else if ch = ']' then Option.some ([v], r3)
      else Option.none
    | [] => Option.none

end

/-- Consumed characters up to and including the first occurrence of `lit`,
with the remainder. -/
def splitAfterLit (lit : List Char) : List Char → Option (List Char × List Char)
  | [] => if lit = [] then Option.some ([], []) else Option.none
  | l@(c :: t) =>
    if leadsWith lit l then Option.some (lit, l.drop lit.length)
    else (splitAfterLit lit t).map (fun x => (c :: x.1, x.2))

/-- Consumed characters up to and including the first occurrence of `ch`,
with the remainder. -/
def splitThroughChar (ch : Char) : List Char → Option (List Char × List Char)
  | [] => Option.none
  | c :: t =>
    if c = ch then Option.some ([c], t)
    else (splitThroughChar ch t).map (fun x => (c :: x.1, x.2))

/-- The quoted literal `"fraud_score"` that the JSON pattern requires. -/
def fsLit : List Char := '"' :: "fraud_score".data ++ ['"']

/-- The captured group of the lazy `(\{.*?"fraud_score".*?\})` search. -/
def jsonCandidate (l : List Char) : Option (List Char) := do
  let (_, afterBrace) ← splitThroughChar lbrace l
  let (a, afterLit) ← splitAfterLit fsLit afterBrace
  let (b, _) ← splitThroughChar rbrace afterLit
  Option.some (lbrace :: (a ++ b))

/-- Python dicts keep the last duplicate key. -/
def lookupLastKey (key : String) (kvs : List (String × JsonVal)) : Option JsonVal :=
  kvs.foldl (fun acc kv => if kv.1 = key then Option.some kv.2 else acc) Option.none

/-- The JSON branch: captured object parsed, `fraud_score` key read and
clamped via `max(0, min(100, int(...)))` (line 154).  A `null`, array or
object value (no break / `int()` TypeError) and any parse failure fall
through to the next extraction stage, as the `continue` does. -/
def json_fraud_score (text : String) : Option ℤ :=
  match jsonCandidate text.data with
  | Option.none => Option.none
  | Option.some cand =>
    match parseJsonVal (2 * cand.length + 4) cand with
    | Option.some (JsonVal.obj kvs, rest) =>
      if dropWs rest = [] then
        match lookupLastKey "fraud_score" kvs with
        | Option.some (JsonVal.num q) => Option.some (max 0 (min 100 (truncQ q)))
        | Option.some (JsonVal.str s) =>
          match parseIntStr s with
          | Option.some z => Option.some (max 0 (min 100 z))
          | Option.none => Option.none
        | Option.some (JsonVal.bool b) =>
          Option.some (max 0 (min 100 (if b then (1 : ℤ) else 0)))
        | _ => Option.none
      else Option.none
    | _ => Option.none

/-- The score-extraction pipeline of `_parse_fraud_response`: JSON branch,
labelled `FRAUD_SCORE` field, first percentage in range, score patterns,
neutral default 50; the final clamp of line 183 applies to every path.  The
second component records whether the could-not-extract warning of line 181
was logged: line 168 already defaults the score to 50, so the `fraud_score
is None` test of line 179 can never succeed. -/
def parse_fraud_score (text : String) : ℤ × Bool :=
  match json_fraud_score text with
  | Option.some j => (max 0 (min 100 j), false)
  | Option.none =>
    match search_fraud_score_label text with
    | Option.some n => (max 0 (min 100 (n : ℤ)), false)
    | Option.none =>
      let valid_scores := (find_percent_scores text).filter (fun m => m ≤ 100)
      match valid_scores with
      | v :: _ => (max 0 (min 100 (v : ℤ)), false)
      | [] =>
        let fs1 : Option ℤ :=
          match score_patterns_extract text with
          | Option.some c => Option.some (c : ℤ)
          | Option.none => Option.some 50
        match fs1 with
        | Option.none => (max 0 (min 100 50), true)
        | Option.some v => (max 0 (min 100 v), false)

/-- `_parse_fraud_response` as a result record: clamped score with the risk
level re-derived from it (line 184).  Risk factors and reasoning are
presentation text; the risk-factor default stands in for them. -/
def parse_fraud_response (text : String) : FraudResult :=
  let r := parse_fraud_score text
  { fraud_score := (r.1 : ℚ), risk_level := get_risk_level (r.1 : ℚ),
    risk_factors := ["Analysis pending"], model_used := Option.none, cost_saved := false }

/-! ## Claims C1 and C2: the arbitration decision table -/

/-- C1: for every non-medical sector, the arbitration of a deterministic
score D against a model score M evaluates the seven rules of the decision
table in order, first match wins, with the rule-4 tolerance equal to 40,
which lies in the 25-40 range; rejection makes the final result use the
deterministic score and acceptance the model's score. -/
theorem C1_arbitration_matches_decision_table :
    (25 : ℚ) ≤ 40 ∧ (40 : ℚ) ≤ 40 ∧
    ∀ (s : Sector), s ≠ .medical →
      ∀ (d m : ℚ) (r : Risk),
        validate_llm_decision s d m r = spec_arbitration 40 d m r ∧
        router_final_score (validate_llm_decision s d m r) d m =
          (if spec_arbitration 40 d m r then m else d) := by
  refine ⟨by norm_num, le_refl _, ?_⟩
  intro s hs d m r
  constructor
  · simp only [validate_llm_decision, spec_arbitration, if_neg hs]
  · simp only [router_final_score, validate_llm_decision, spec_arbitration, if_neg hs]

/-- Witness for C1 at a concrete non-medical instantiation. -/
theorem C1_arbitration_matches_decision_table_witness :
    validate_llm_decision .banking 5 90 (get_risk_level 90) =
      spec_arbitration 40 5 90 (get_risk_level 90) :=
  ((C1_arbitration_matches_decision_table.2.2 .banking (by decide) 5 90
    (get_risk_level 90)).1)

/-- C2 counterexample: the claim says the pair (deterministic 50, model 68)
is accepted, but with the model risk level derived from its score (MEDIUM vs
HIGH, difference 18 > 15) rule 6 rejects it in the code. -/
theorem C2_counterexample_50_68_rejected :
    validate_llm_decision .banking 50 68 (get_risk_level 68) = false := by
  norm_num [validate_llm_decision, absQ, get_risk_level]
  decide

/-- C2 (amended): on the five boundary pairs the arbitration decides:
(5, 90) rejected, (70, 20) rejected, (5, 40) accepted, (50, 68) rejected
(rule 6: difference 18 > 15 with MEDIUM vs HIGH risk levels), (50, 72)
rejected. -/
theorem C2_arbitration_boundary_pairs (s : Sector) (hs : s ≠ .medical) :
    validate_llm_decision s 5 90 (get_risk_level 90) = false ∧
    validate_llm_decision s 70 20 (get_risk_level 20) = false ∧
    validate_llm_decision s 5 40 (get_risk_level 40) = true ∧
    validate_llm_decision s 50 68 (get_risk_level 68) = false ∧
    validate_llm_decision s 50 72 (get_risk_level 72) = false := by
  cases s
  case medical => exact absurd rfl hs
  all_goals
    refine ⟨?_, ?_, ?_, ?_, ?_⟩ <;>
      norm_num [validate_llm_decision, absQ, get_risk_level] <;> decide

/-! ## Claim C7: parser clamping and the degradation warning -/

/-- C7: the parser clamps every extracted score into [0, 100] and maps
`fraud_score: 137` to exactly 100; a text with no extractable score yields
the neutral default 50, but the logged-degradation warning of the claim
never fires: line 168 of `parsing.py` pre-defaults the score to 50, so the
`fraud_score is None` guard of line 179 is unreachable and the warning flag
is `false` on every input, including the no-extractable-score one. -/
theorem C7_parser_clamps_but_warning_unreachable :
    parse_fraud_score "fraud_score: 137" = (100, false) ∧
    parse_fraud_score "The transaction looks legitimate." = (50, false) ∧
    (∀ text : String,
      0 ≤ (parse_fraud_score text).1 ∧ (parse_fraud_score text).1 ≤ 100) ∧
    (∀ text : String, (parse_fraud_score text).2 = false) := by
  refine ⟨by decide, by decide, ?_, ?_⟩
  · intro text
    simp only [parse_fraud_score]
    repeat' split
    all_goals
      exact ⟨le_max_left _ _, max_le (by norm_num) (min_le_left _ _)⟩
  · intro text
    simp only [parse_fraud_score]
    repeat' split
    all_goals first
      | rfl
      | (rename_i heq; split at heq <;> simp_all)

/-- Witness for the amended C2 at the banking sector. -/
theorem C2_arbitration_boundary_pairs_witness :
    validate_llm_decision .banking 5 90 (get_risk_level 90) = false ∧
    validate_llm_decision .banking 70 20 (get_risk_level 20) = false ∧
    validate_llm_decision .banking 5 40 (get_risk_level 40) = true ∧
    validate_llm_decision .banking 50 68 (get_risk_level 68) = false ∧
    validate_llm_decision .banking 50 72 (get_risk_level 72) = false :=
  C2_arbitration_boundary_pairs .banking (by decide)

/-! ## Claim C8: defensive reading of record fields -/

/-- C8 counterexample: a non-numeric string in the e-commerce
`listed_price` field makes the chain raise (`float(...)` at line 33 of
`ecommerce_chain.py` is not wrapped in `try/except`), so the deterministic
scoring does not return a score for every record, contrary to the claim. -/
theorem C8_counterexample_ecommerce_raises :
    score_ecommerce_fraud [("listed_price", PyVal.str "not a number")] =
      .error .valueError := rfl

/-- C8 (amended): the banking and medical chains never raise (all their
coercions are guarded) and guarded fields fall back to their neutral
defaults, but the unguarded numeric reads of the e-commerce chain
(listed_price/price/market_price/amount/order_amount) and of the
supply-chain chain (price_variance/quality_issues/delivery_variance) raise
on values that do not coerce. -/
theorem C8_coercion_guards_partial :
    (∀ data : Record, ∃ q, SCORING_CHAINS .banking data = .ok q) ∧
    (∀ data : Record, ∃ q, SCORING_CHAINS .medical data = .ok q) ∧
    banking_amount_factor [("amount", PyVal.str "not a number")] =
      banking_amount_factor [] ∧
    score_supply_chain_fraud [("price_variance", PyVal.str "not a number")] =
      .error .valueError :=
  ⟨fun _ => ⟨_, rfl⟩, fun _ => ⟨_, rfl⟩, rfl, rfl⟩

/-! ## Claim C9: additivity and order independence of the factors -/

/-- The record and extracted values of the C9 reordering instance. -/
def c9_record : Record :=
  [("price_variance", PyVal.num 45), ("order_details", PyVal.str "established supplier")]

def c9_vals : SupplyVals :=
  ⟨"", 365, 45, "established supplier", false, 0, true, true, 0, 0⟩

/-- The supply-chain factor blocks with the legitimate-keyword block moved
before the documentation/delivery blocks (a permutation of the source
order). -/
def supplyFactorsPerm (v : SupplyVals) : List (ℚ → ℚ) :=
  (supplyFactorsFront v).take 3 ++ legitFactor v :: (supplyFactorsFront v).drop 3

/-- Moving the last element of a list to position `n` is a permutation. -/
theorem perm_append_singleton_insert {α : Type} (l : List α) (a : α) (n : ℕ) :
    List.Perm (l ++ [a]) (l.take n ++ a :: l.drop n) := by
  have h1 : List.Perm (l ++ [a]) (a :: l) := List.perm_append_singleton a l
  have h2 : List.Perm (a :: l) (l.take n ++ a :: l.drop n) := by
    conv_lhs => rw [show l = l.take n ++ l.drop n from (List.take_append_drop n l).symm]
    exact List.perm_middle.symm
  exact h1.trans h2

theorem c9_fold_original : clamp0100 (applyFactors (supplyFactors c9_vals) 0) = 15 := by
  have h1 : (supply_legitimate_keywords.any fun kw => strIn kw "established supplier") = true := by
    decide
  have h2 : (critical_flags.any fun f => strIn f "established supplier") = false := by decide
  have h3 : (supply_high_risk_flags.any fun f => strIn f "established supplier") = false := by
    decide
  have h4 : (supply_medium_risk_flags.any fun f => strIn f "established supplier") = false := by
    decide
  have hpt1 : ¬ ("" = "ADVANCE") := by decide
  have hpt2 : ¬ ("" = "COD") := by decide
  norm_num [supplyFactors, supplyFactorsFront, legitFactor, applyFactors, c9_vals,
    clamp0100, h1, h2, h3, h4, hpt1, hpt2]

theorem c9_fold_permuted : clamp0100 (applyFactors (supplyFactorsPerm c9_vals) 0) = 25 := by
  have h1 : (supply_legitimate_keywords.any fun kw => strIn kw "established supplier") = true := by
    decide
  have h2 : (critical_flags.any fun f => strIn f "established supplier") = false := by decide
  have h3 : (supply_high_risk_flags.any fun f => strIn f "established supplier") = false := by
    decide
  have h4 : (supply_medium_risk_flags.any fun f => strIn f "established supplier") = false := by
    decide
  have hpt1 : ¬ ("" = "ADVANCE") := by decide
  have hpt2 : ¬ ("" = "COD") := by decide
  norm_num [supplyFactorsPerm, supplyFactorsFront, legitFactor, applyFactors, c9_vals,
    clamp0100, h1, h2, h3, h4, hpt1, hpt2]

/-- C9 counterexample: the supply-chain legitimate-keyword block reads the
running total (`score < 30`), so reordering the factor blocks changes the
score: on a concrete record the source order yields 15 while a permutation
of the same blocks yields 25. -/
theorem C9_counterexample_reordering_changes_score :
    supplyExtract c9_record = .ok c9_vals ∧
    score_supply_chain_fraud c9_record = .ok 15 ∧
    List.Perm (supplyFactors c9_vals) (supplyFactorsPerm c9_vals) ∧
    clamp0100 (applyFactors (supplyFactors c9_vals) 0) = 15 ∧
    clamp0100 (applyFactors (supplyFactorsPerm c9_vals) 0) = 25 := by
  refine ⟨rfl, ?_, perm_append_singleton_insert _ _ 3, c9_fold_original, c9_fold_permuted⟩
  show (supplyExtract c9_record).map (fun v => clamp0100 (applyFactors (supplyFactors v) 0)) =
    .ok 15
  rw [show supplyExtract c9_record = .ok c9_vals from rfl]
  simpa [Except.map] using c9_fold_original

/-- The claim-amount block of `score_medical_fraud`. -/
def medical_amount_factor (data : Record) : ℚ :=
  let claim_amount := pyFloatOr (data.get "claim_amount" (.num 0)) 0
  if claim_amount > 100000 then 35
  else if claim_amount > 50000 then 25
  else if claim_amount > 20000 then 15
  else if claim_amount < 1000 then -5
  else 0

/-- The procedure-count block of `score_medical_fraud`. -/
def medical_procedures_factor (data : Record) : ℚ :=
  match data.get "procedures" (.list []) with
  | .list ps => if ps.length > 10 then 30 else if ps.length > 5 then 20 else 0
  | .str s =>
    let procedure_count := if s = "" then 0 else s.data.count ',' + 1
    if procedure_count > 10 then 30 else if procedure_count > 5 then 20 else 0
  | _ => 0

/-- The provider-history block of `score_medical_fraud`. -/
def medical_history_factor (data : Record) : ℚ :=
  let provider_history := strLower (pyStr (data.get "provider_history" (.str "clean")))
  if strIn "flagged" provider_history || strIn "suspended" provider_history then 45
  else if strIn "clean" provider_history || strIn "verified" provider_history then -5
  else 0

/-- The diagnosis-mismatch block of `score_medical_fraud`. -/
def medical_mismatch_factor (data : Record) : ℚ :=
  if pyTruthy (data.get "diagnosis_mismatch" (.bool false)) then 40 else 0

/-- The unverified-provider block of `score_medical_fraud`. -/
def medical_unverified_factor (data : Record) : ℚ :=
  if pyTruthy (data.get "provider_verified" (.bool true)) then 0 else 25

/-- The per-factor contributions of `score_medical_fraud`, in source order. -/
def medicalFactors (data : Record) : List ℚ :=
  [medical_amount_factor data, medical_procedures_factor data,
   medical_history_factor data, medical_mismatch_factor data,
   medical_unverified_factor data]

/-- The medical score is the clamped sum of its factor contributions. -/
theorem medical_factored (data : Record) :
    score_medical_fraud data = clamp0100 (medicalFactors data).sum := by
  unfold score_medical_fraud
  simp only [medicalFactors, List.sum_cons, List.sum_nil, medical_amount_factor,
    medical_procedures_factor, medical_history_factor, medical_mismatch_factor,
    medical_unverified_factor]
  congr 1
  ring

/-- The price values drawn from a record by the e-commerce chain: the
effective price, the market price and the effective order amount, extracted
by the same `float(...)` reads (and in the same order) as in
`ecommerce_running_total`; these are the only inter-block data flow of the
chain. -/
structure EPrices where
  price : ℚ
  market_price : ℚ
  order_amount : ℚ

def ecommPrices (data : Record) : Except PyErr EPrices := do
  let v1 ← pyFloat (data.get "listed_price" (.num 0))
  let price ← if v1 = 0 then pyFloat (data.get "price" (.num 0)) else Except.ok v1
  let market_price ← pyFloat (data.get "market_price" (.num price))
  let a1 ← pyFloat (data.get "amount" (.num 0))
  let order_amount ← if a1 = 0 then pyFloat (data.get "order_amount" (.num 0)) else Except.ok a1
  Except.ok ⟨price, market_price, order_amount⟩

/-- The seller-age block of `ecommerce_running_total`. -/
def ecomm_seller_age_factor (data : Record) : ℚ :=
  let seller_age := pyIntOr (data.get "seller_age_days" (.num 365)) 365
  if seller_age < 1 then 45
  else if seller_age < 7 then 40
  else if seller_age < 30 then 25
  else if seller_age < 90 then 10
  else if seller_age ≥ 730 then -10
  else 0

/-- The price-markup/discount block of `ecommerce_running_total`. -/
def ecomm_markup_factor (p : EPrices) : ℚ :=
  if p.market_price > 0 ∧ p.price > 0 then
    let markup := p.price / p.market_price
    if markup > 10 then 60
    else if markup > 5 then 45
    else if markup > 2 then 30
    else if p.price < p.market_price then
      let discount_pct := ((p.market_price - p.price) / p.market_price) * 100
      if discount_pct > 70 then 50
      else if discount_pct > 50 then 40
      else if discount_pct > 30 then 25
      else 0
    else if (9 : ℚ)/10 ≤ markup ∧ markup ≤ (11 : ℚ)/10 then -5
    else 0
  else 0

/-- The order-amount block of `ecommerce_running_total`. -/
def ecomm_order_factor (p : EPrices) : ℚ :=
  if p.price > 0 ∧ p.order_amount > p.price then
    let order_markup := p.order_amount / p.price
    if order_markup ≥ 10 then 60
    else if order_markup ≥ 5 then 45
    else if order_markup ≥ 2 then 30
    else 0
  else 0

/-- The address-mismatch block of `ecommerce_running_total`. -/
def ecomm_address_factor (data : Record) : ℚ :=
  let shipping_address := strLower (pyStr (data.get "shipping_address" (.str "")))
  let billing_address := strLower (pyStr (data.get "billing_address" (.str "")))
  if shipping_address ≠ "" ∧ billing_address ≠ "" ∧
      removeSpaces shipping_address ≠ removeSpaces billing_address then 30
  else if shipping_address ≠ "" ∧ billing_address ≠ "" ∧
      shipping_address = billing_address then -5
  else 0

/-- The payment-method block of `ecommerce_running_total`. -/
def ecomm_payment_factor (data : Record) : ℚ :=
  let payment_method := strLower (pyStr (data.get "payment_method" (.str "")))
  if ["crypto", "gift_card", "prepaid", "other"].any (fun m => strIn m payment_method) then 20
  else if payment_method = "credit_card" ∨ payment_method = "debit_card" then -5
  else 0

/-- The IP-address block of `ecommerce_running_total`. -/
def ecomm_ip_factor (data : Record) : ℚ :=
  let ip_address := strLower (pyStr (data.get "ip_address" (.str "")))
  if strIn "vpn" ip_address || strIn "tor" ip_address || strIn "proxy" ip_address then 25
  else if strIn "unknown" ip_address || ip_address = "" then 10
  else 0

/-- The email-verification block of `ecommerce_running_total`. -/
def ecomm_email_factor (data : Record) : ℚ :=
  if pyTruthy (data.get "email_verified" (.bool false)) then -5 else 15

/-- The reviews block of `ecommerce_running_total`. -/
def ecomm_reviews_factor (data : Record) : ℚ :=
  match data.get "reviews" (.list []) with
  | .list rs =>
    (if rs.length = 0 then 20 else if rs.length < 5 then 10 else 0) +
    (let negative_count :=
       (rs.filter (fun r => NEGATIVE_KEYWORDS.any (fun kw => strIn kw (strLower (pyStr r))))).length
     if negative_count > 0 then ((min 40 (negative_count * 15) : ℕ) : ℚ)
     else if rs.length > 0 ∧ (rs.take 5).all
         (fun r => strIn "excellent" (strLower (pyStr r)) || strIn "5" (pyStr r)) then 30
     else 0)
  | .str s =>
    if s = "" ∨ strLower s = "none" then 20
    else
      let negative_count := (NEGATIVE_KEYWORDS.filter (fun kw => strIn kw (strLower s))).length
      if negative_count > 0 then ((min 40 (negative_count * 10) : ℕ) : ℚ) else 0
  | _ => 0

/-- The unverified-new-seller block of `ecommerce_running_total`. -/
def ecomm_unverified_factor (data : Record) : ℚ :=
  let seller_age := pyIntOr (data.get "seller_age_days" (.num 365)) 365
  if ¬ pyTruthy (data.get "seller_verified" (.bool false)) ∧ seller_age < 30 then 15 else 0

/-- The shipping-location block of `ecommerce_running_total`. -/
def ecomm_shipping_factor (data : Record) : ℚ :=
  let shipping := strLower (pyStr (data.get "shipping_location" (.str "")))
  if strIn "unknown" shipping || shipping = "" then 25
  else if ["united states", "canada", "united kingdom", "germany", "france"].any
      (fun c => shipping = c) then -5
  else 0

/-- The product-description block of `ecommerce_running_total`. -/
def ecomm_description_factor (data : Record) : ℚ :=
  let product_details := strLower (pyStr (data.get "product_details" (.str "")))
  let description := strLower (pyStr (data.get "description" (.str product_details)))
  if strIn "stock photo" description ∨ strIn "vague" description ∨
      description.length < 20 then 15
  else if strIn "authentic" description || strIn "verified" description then -5
  else 0

/-- The per-factor contributions of the e-commerce chain, in source order:
each depends only on the record and the extracted price values, never on the
running total. -/
def ecommFactors (data : Record) (p : EPrices) : List ℚ :=
  [ecomm_seller_age_factor data, ecomm_markup_factor p, ecomm_order_factor p,
   ecomm_address_factor data, ecomm_payment_factor data, ecomm_ip_factor data,
   ecomm_email_factor data, ecomm_reviews_factor data, ecomm_unverified_factor data,
   ecomm_shipping_factor data, ecomm_description_factor data]

theorem except_bind_ok {e α β : Type} (a : α) (f : α → Except e β) :
    (Except.ok a : Except e α) >>= f = f a := rfl

theorem except_bind_error {e α β : Type} (err : e) (f : α → Except e β) :
    (Except.error err : Except e α) >>= f = Except.error err := rfl

/-- The e-commerce running total is the sum of the factor contributions over
the extracted price values (with the same error propagation). -/
theorem ecommerce_total_factored (data : Record) :
    ecommerce_running_total data =
      (ecommPrices data).map (fun p => (ecommFactors data p).sum) := by
  unfold ecommerce_running_total ecommPrices
  rcases h1 : pyFloat (data.get "listed_price" (.num 0)) with e | v1 <;>
    simp only [h1, except_bind_error, except_bind_ok, Except.map]
  by_cases hv : v1 = 0
  case pos =>
    simp only [if_pos hv]
    rcases h2 : pyFloat (data.get "price" (.num 0)) with e | price <;>
      simp only [h2, except_bind_error, except_bind_ok, Except.map]
    rcases h3 : pyFloat (data.get "market_price" (.num price)) with e | mp <;>
      simp only [h3, except_bind_error, except_bind_ok, Except.map]
    rcases h4 : pyFloat (data.get "amount" (.num 0)) with e | a1 <;>
      simp only [h4, except_bind_error, except_bind_ok, Except.map]
    by_cases ha : a1 = 0
    case pos =>
      simp only [if_pos ha]
      rcases h5 : pyFloat (data.get "order_amount" (.num 0)) with e | oa <;>
        simp only [h5, except_bind_error, except_bind_ok, Except.map]
      simp only [ecommFactors, List.sum_cons, List.sum_nil, ecomm_seller_age_factor,
        ecomm_markup_factor, ecomm_order_factor, ecomm_address_factor, ecomm_payment_factor,
        ecomm_ip_factor, ecomm_email_factor, ecomm_reviews_factor, ecomm_unverified_factor,
        ecomm_shipping_factor, ecomm_description_factor, Except.ok.injEq]
      ring
    case neg =>
      simp only [if_neg ha, except_bind_ok, Except.map]
      simp only [ecommFactors, List.sum_cons, List.sum_nil, ecomm_seller_age_factor,
        ecomm_markup_factor, ecomm_order_factor, ecomm_address_factor, ecomm_payment_factor,
        ecomm_ip_factor, ecomm_email_factor, ecomm_reviews_factor, ecomm_unverified_factor,
        ecomm_shipping_factor, ecomm_description_factor, Except.ok.injEq]
      ring
  case neg =>
    simp only [if_neg hv, except_bind_ok]
    rcases h3 : pyFloat (data.get "market_price" (.num v1)) with e | mp <;>
      simp only [h3, except_bind_error, except_bind_ok, Except.map]
    rcases h4 : pyFloat (data.get "amount" (.num 0)) with e | a1 <;>
      simp only [h4, except_bind_error, except_bind_ok, Except.map]
    by_cases ha : a1 = 0
    case pos =>
      simp only [if_pos ha]
      rcases h5 : pyFloat (data.get "order_amount" (.num 0)) with e | oa <;>
        simp only [h5, except_bind_error, except_bind_ok, Except.map]
      simp only [ecommFactors, List.sum_cons, List.sum_nil, ecomm_seller_age_factor,
        ecomm_markup_factor, ecomm_order_factor, ecomm_address_factor, ecomm_payment_factor,
        ecomm_ip_factor, ecomm_email_factor, ecomm_reviews_factor, ecomm_unverified_factor,
        ecomm_shipping_factor, ecomm_description_factor, Except.ok.injEq]
      ring
    case neg =>
      simp only [if_neg ha, except_bind_ok, Except.map]
      simp only [ecommFactors, List.sum_cons, List.sum_nil, ecomm_seller_age_factor,
        ecomm_markup_factor, ecomm_order_factor, ecomm_address_factor, ecomm_payment_factor,
        ecomm_ip_factor, ecomm_email_factor, ecomm_reviews_factor, ecomm_unverified_factor,
        ecomm_shipping_factor, ecomm_description_factor, Except.ok.injEq]
      ring

/-- C9 (amended): in the banking, medical and e-commerce chains every factor
contribution is a function of the record (and, for the two e-commerce price
blocks, the extracted price values) alone and the pre-clamp total is their
sum, so any permutation of the contributions leaves the score unchanged; the
supply-chain chain violates this: its legitimate-keyword block depends on the
running total (subtracting 10 only while the total is below 30), and
reordering its blocks can change the score. -/
theorem C9_factor_order_independence :
    (∀ (data : Record) (l : List ℚ), List.Perm (bankingFactors data) l →
      clamp0100 l.sum = score_banking_fraud data) ∧
    (∀ (data : Record) (l : List ℚ), List.Perm (medicalFactors data) l →
      clamp0100 l.sum = score_medical_fraud data) ∧
    (∀ (data : Record) (p : EPrices) (l : List ℚ), ecommPrices data = .ok p →
      List.Perm (ecommFactors data p) l →
      score_ecommerce_fraud data = .ok (clamp0100 l.sum)) ∧
    legitFactor c9_vals 25 = 15 ∧ legitFactor c9_vals 35 = 35 := by
  refine ⟨?_, ?_, ?_, ?_, ?_⟩
  · intro data l hperm
    rw [hperm.symm.sum_eq]
    unfold score_banking_fraud
    congr 1
    simp [bankingFactors]
    ring
  · intro data l hperm
    rw [hperm.symm.sum_eq, medical_factored]
  · intro data p l hp hperm
    rw [← hperm.sum_eq]
    unfold score_ecommerce_fraud
    rw [ecommerce_total_factored, hp]
    rfl
  · have h1 : (supply_legitimate_keywords.any fun kw => strIn kw "established supplier") = true := by
      decide
    norm_num [legitFactor, c9_vals, h1]
  · have h1 : (supply_legitimate_keywords.any fun kw => strIn kw "established supplier") = true := by
      decide
    norm_num [legitFactor, c9_vals, h1]

/-- Witness for the amended C9 at the identity permutation of concrete
records for all three order-independent chains, with the e-commerce price
extraction discharged on the empty record. -/
theorem C9_factor_order_independence_witness :
    clamp0100 (bankingFactors []).sum = score_banking_fraud [] ∧
    clamp0100 (medicalFactors []).sum = score_medical_fraud [] ∧
    score_ecommerce_fraud [] = .ok (clamp0100 (ecommFactors [] ⟨0, 0, 0⟩).sum) :=
  ⟨C9_factor_order_independence.1 [] (bankingFactors []) (List.Perm.refl _),
   C9_factor_order_independence.2.1 [] (medicalFactors []) (List.Perm.refl _),
   C9_factor_order_independence.2.2.1 [] ⟨0, 0, 0⟩ (ecommFactors [] ⟨0, 0, 0⟩)
     rfl (List.Perm.refl _)⟩

/-! ## Shared orchestration lemmas and oracles -/

/-- Oracle on which every provider attempt fails. -/
def envNone : EnvF := fun _ _ => Option.none

/-- A fixed parsed model outcome used as an oracle result. -/
def model_stub_result : FraudResult :=
  { fraud_score := 40, risk_level := .medium, risk_factors := [],
    model_used := Option.none, cost_saved := false }

/-- Oracle on which every provider attempt succeeds with the given result. -/
def envAll (r : FraudResult) : EnvF := fun _ _ => Option.some r

/-- When every candidate's attempt fails, the candidate loop produces no
result. -/
theorem candidate_loop_all_none (envF : EnvF) :
    ∀ (l : List ProviderCandidate) (idx : ℕ),
      (∀ c ∈ l, envF c.provider c.model = Option.none) →
      (candidate_loop envF l idx).2 = Option.none := by
  intro l
  induction l with
  | nil => intro idx h; rfl
  | cons c rest ih =>
    intro idx h
    unfold candidate_loop
    split
    · exact ih (idx + 1) (fun x hx => h x (List.mem_cons_of_mem _ hx))
    · split
      · rw [h c (List.mem_cons_self _ _)]
        simpa using ih (idx + 1) (fun x hx => h x (List.mem_cons_of_mem _ hx))
      · exact ih (idx + 1) (fun x hx => h x (List.mem_cons_of_mem _ hx))

/-- On a non-two-stage sector, the event trace of `analyze_fraud` is either
the lone extreme pre-check or both pre-checks followed by the candidate
loop's calls. -/
theorem analyze_fraud_trace_shape (sector : Sector) (data : Record) (envF : EnvF)
    (envC : EnvC) (hs : SECTOR_MODELS_two_stage sector = false) :
    (analyze_fraud sector data envF envC).1 = [OEvent.precheckExtreme] ∨
    ∃ rest, (analyze_fraud sector data envF envC).1 =
      OEvent.precheckExtreme :: OEvent.precheckOfac :: rest := by
  unfold analyze_fraud
  rw [hs]
  simp only [Bool.false_eq_true, if_false]
  split
  · left; rfl
  · left; rfl
  · split
    · right; exact ⟨[], rfl⟩
    · right; exact ⟨[], rfl⟩
    · split
      · right; exact ⟨_, rfl⟩
      · right; exact ⟨_, rfl⟩

/-! ## Claim C4: pre-checks before any model call -/

/-- C4 counterexample: for the medical sector the two-stage dispatch comes
first, so a model is called without either pre-check having run: on a
concrete run both stage models are invoked and no pre-check event occurs. -/
theorem C4_counterexample_medical_skips_prechecks :
    (analyze_fraud .medical [] (envAll model_stub_result) (Option.some [])).1 =
      [OEvent.modelCall "hf_space" "ironjeffe/google-medgemma-4b-it",
       OEvent.modelCall "hf" "Qwen/Qwen2.5-72B-Instruct"] ∧
    ((analyze_fraud .medical [] (envAll model_stub_result) (Option.some [])).1.contains
      OEvent.precheckExtreme) = false ∧
    ((analyze_fraud .medical [] (envAll model_stub_result) (Option.some [])).1.contains
      OEvent.precheckOfac) = false := by
  refine ⟨by decide, by decide, by decide⟩

/-- C4 (amended): for the non-two-stage sectors (banking, e-commerce,
supply chain) both pre-checks are evaluated before any model call: the
trace starts with the extreme-value pre-check, and whenever a model call
occurs, the first two events are the extreme-value and the jurisdiction
pre-checks.  The medical sector dispatches to the two-stage pipeline before
either pre-check. -/
theorem C4_prechecks_precede_model_calls (sector : Sector) (data : Record)
    (envF : EnvF) (envC : EnvC) (hs : SECTOR_MODELS_two_stage sector = false) :
    (analyze_fraud sector data envF envC).1.head? = Option.some OEvent.precheckExtreme ∧
    ∀ p m, OEvent.modelCall p m ∈ (analyze_fraud sector data envF envC).1 →
      (analyze_fraud sector data envF envC).1.get? 0 = Option.some OEvent.precheckExtreme ∧
      (analyze_fraud sector data envF envC).1.get? 1 = Option.some OEvent.precheckOfac := by
  rcases analyze_fraud_trace_shape sector data envF envC hs with h | ⟨rest, h⟩
  · rw [h]
    refine ⟨rfl, ?_⟩
    intro p m hm
    simp at hm
  · rw [h]
    exact ⟨rfl, fun p m _ => ⟨rfl, rfl⟩⟩

/-- Witness for the amended C4 at the banking sector on a concrete record
and oracle. -/
theorem C4_prechecks_precede_model_calls_witness :
    (analyze_fraud .banking [] envNone Option.none).1.head? =
      Option.some OEvent.precheckExtreme :=
  (C4_prechecks_precede_model_calls .banking [] envNone Option.none (by decide)).1

/-! ## Claim C3: the OFAC jurisdiction short-circuit -/

/-- The record of the C3 counterexample: an OFAC country plus exactly one
additional red flag (VPN; KYC is verified and the account age defaults to
365). -/
def c3_record : Record :=
  [("source_country", PyVal.str "Iran"), ("ip_address", PyVal.str "vpn 10.0.0.1"),
   ("kyc_verified", PyVal.bool true)]

/-- C3 counterexample: with a jurisdiction match and exactly one additional
red flag the code does not short-circuit: the provider orchestrator is
invoked (the claim says it never is). -/
theorem C3_counterexample_one_extra_flag_calls_model :
    (check_ofac_in_data c3_record (SECTOR_LOCATION_FIELDS .banking)).1 = true ∧
    ofac_red_flags .banking c3_record = .ok ["VPN/Proxy/TOR detected"] ∧
    ((analyze_fraud .banking c3_record (envAll model_stub_result) Option.none).1.contains
      (OEvent.modelCall "hf" "Qwen/Qwen2.5-72B-Instruct")) = true :=
  ⟨by decide, rfl, by decide⟩

/-- Each red-flag list contributes at most one entry, so there are at most
three additional flags. -/
theorem ofac_red_flags_le3 (s : Sector) (d : Record) (flags : List String)
    (h : ofac_red_flags s d = .ok flags) : flags.length ≤ 3 := by
  unfold ofac_red_flags at h
  rcases hage : (match sector_age_field s with
    | Option.some f => pyLt30 (d.get f (.num 365))
    | Option.none => Except.ok false) with e | b
  all_goals rw [hage] at h
  · simp at h
  · simp only [Except.ok.injEq] at h
    subst h
    simp only [List.length_append]
    repeat' split
    all_goals simp

/-- C3 (amended): when the extreme-value pre-check has not fired, a
jurisdiction match together with at least TWO additional red flags makes the
analysis return immediately with score `min(75 + 5 x extra_flags, 100)`, a
CRITICAL risk level and the pre-check source, and no model is called. -/
theorem C3_ofac_short_circuit_two_extra_flags (sector : Sector) (data : Record)
    (envF : EnvF) (envC : EnvC) (flags : List String)
    (hs : SECTOR_MODELS_two_stage sector = false)
    (hx : check_extreme_fraud_patterns sector data = .ok Option.none)
    (hof : (check_ofac_in_data data (SECTOR_LOCATION_FIELDS sector)).1 = true)
    (hfl : ofac_red_flags sector data = .ok flags)
    (h2 : 2 ≤ flags.length) :
    analyze_fraud sector data envF envC =
      ([OEvent.precheckExtreme, OEvent.precheckOfac],
        .ok { fraud_score := min (75 + 5 * (flags.length : ℚ)) 100,
              risk_level := .critical,
              risk_factors := "OFAC sanctioned/high-risk country" :: flags,
              model_used := Option.some "OFAC Pre-Check (Cost-Efficient)",
              cost_saved := true }) ∧
    ((analyze_fraud sector data envF envC).1.all fun ev => !ev.isModelCall) = true := by
  have hle3 := ofac_red_flags_le3 sector data flags hfl
  have hL : flags.length = 2 ∨ flags.length = 3 := by omega
  have hofa : ofac_precheck sector data = .ok (Option.some
      { fraud_score := min (75 + 5 * (flags.length : ℚ)) 100,
        risk_level := .critical,
        risk_factors := "OFAC sanctioned/high-risk country" :: flags,
        model_used := Option.some "OFAC Pre-Check (Cost-Efficient)",
        cost_saved := true }) := by
    unfold ofac_precheck
    simp only [hof, if_true, hfl, except_bind_ok, ge_iff_le, h2]
    rcases hL with h | h <;> rw [h] <;> norm_num [min_def]
  have hmain : analyze_fraud sector data envF envC =
      ([OEvent.precheckExtreme, OEvent.precheckOfac],
        .ok { fraud_score := min (75 + 5 * (flags.length : ℚ)) 100,
              risk_level := .critical,
              risk_factors := "OFAC sanctioned/high-risk country" :: flags,
              model_used := Option.some "OFAC Pre-Check (Cost-Efficient)",
              cost_saved := true }) := by
    unfold analyze_fraud
    rw [hs]
    simp only [Bool.false_eq_true, if_false, hx, hofa]
  exact ⟨hmain, by rw [hmain]; rfl⟩

/-- Witness for the amended C3: an OFAC country, a VPN indicator and
missing KYC give two extra flags and an immediate CRITICAL result with
score 85 and no model call. -/
theorem C3_ofac_short_circuit_two_extra_flags_witness :
    analyze_fraud .banking
        [("source_country", PyVal.str "Iran"), ("ip_address", PyVal.str "vpn 10.0.0.1")]
        envNone Option.none =
      ([OEvent.precheckExtreme, OEvent.precheckOfac],
        .ok { fraud_score := min (75 + 5 * ((2 : ℕ) : ℚ)) 100,
              risk_level := .critical,
              risk_factors := ["OFAC sanctioned/high-risk country",
                "VPN/Proxy/TOR detected", "Unverified KYC"],
              model_used := Option.some "OFAC Pre-Check (Cost-Efficient)",
              cost_saved := true }) :=
  (C3_ofac_short_circuit_two_extra_flags .banking
    [("source_country", PyVal.str "Iran"), ("ip_address", PyVal.str "vpn 10.0.0.1")]
    envNone Option.none ["VPN/Proxy/TOR detected", "Unverified KYC"]
    (by decide) rfl (by decide) rfl (by decide)).1

/-! ## Claim C10: exhaustion of all provider candidates -/

def c10_result : FraudResult :=
  { fraud_score := 0, risk_level := .low, risk_factors := ["Rule-based analysis"],
    model_used := Option.none, cost_saved := false }

theorem bank_empty_score : score_banking_fraud [] = 0 := by
  norm_num [score_banking_fraud, banking_amount_factor, banking_location_factor,
    banking_ip_factor, banking_type_factor, banking_time_factor, banking_age_factor,
    banking_velocity_factor, banking_kyc_factor, banking_flagged_factor,
    banking_wallet_factor, Record.get, pyFloatOr, pyIntOr, pyFloat, pyInt, pyStr, pyTruthy,
    strLower, strIn, containsSub, leadsWith, clamp0100, truncQ, high_risk_locations]

theorem round1_zero : pyRound1 0 = 0 := by
  norm_num [pyRound1]

/-- C10 counterexample: when every provider candidate fails, the
orchestration does not return None: it returns the rule-based analysis
itself, whose flag is "Rule-based analysis", not a note that all models were
unavailable. -/
theorem C10_counterexample_exhaustion_returns_result :
    (analyze_fraud .banking [] envNone Option.none).2 = .ok c10_result ∧
    c10_result.risk_factors = ["Rule-based analysis"] ∧
    ¬ "All LLM models unavailable" ∈ c10_result.risk_factors := by
  refine ⟨?_, rfl, by decide⟩
  have h0 : (analyze_fraud .banking [] envNone Option.none).2 =
      analyze_fraud_rule_based .banking [] := rfl
  rw [h0]
  have h1 : calculate_fraud_score .banking [] "" = .ok 0 := by
    simp [calculate_fraud_score, SCORING_CHAINS, bank_empty_score, rag_adjust, round1_zero,
      except_bind_ok]
  simp [analyze_fraud_rule_based, h1, get_risk_level, except_bind_ok, c10_result]

/-- C10 (amended): when the pre-checks do not fire and every candidate of
the sector's fallback chain fails, each per-candidate attempt yields no
parsed result and `analyze_fraud` itself returns the deterministic
(rule-based) analysis: the sector chain's score with an empty RAG context,
the re-derived risk level, and the "Rule-based analysis" flag. -/
theorem C10_exhaustion_falls_back_to_rule_based (sector : Sector) (data : Record)
    (envF : EnvF)
    (hs : SECTOR_MODELS_two_stage sector = false)
    (hx : check_extreme_fraud_patterns sector data = .ok Option.none)
    (ho : ofac_precheck sector data = .ok Option.none)
    (hfail : ∀ c ∈ sector_candidates sector, envF c.provider c.model = Option.none) :
    (analyze_fraud sector data envF Option.none).2 = analyze_fraud_rule_based sector data ∧
    ∀ r, analyze_fraud_rule_based sector data = .ok r →
      r.risk_level = get_risk_level r.fraud_score ∧
      r.risk_factors = ["Rule-based analysis"] ∧
      calculate_fraud_score sector data "" = .ok r.fraud_score := by
  constructor
  · have hl := candidate_loop_all_none envF (sector_candidates sector) 0 hfail
    unfold analyze_fraud
    rw [hs]
    simp only [Bool.false_eq_true, if_false, hx, ho, hl]
  · intro r hr
    unfold analyze_fraud_rule_based at hr
    rcases hq : calculate_fraud_score sector data "" with e | q
    all_goals rw [hq] at hr
    · rw [except_bind_error] at hr
      exact absurd hr (by simp)
    · rw [except_bind_ok] at hr
      simp only [Except.ok.injEq] at hr
      subst hr
      exact ⟨rfl, rfl, rfl⟩

/-- Witness for the amended C10 at the banking sector on the empty record
with the all-failing oracle. -/
theorem C10_exhaustion_falls_back_to_rule_based_witness :
    (analyze_fraud .banking [] envNone Option.none).2 =
      analyze_fraud_rule_based .banking [] :=
  (C10_exhaustion_falls_back_to_rule_based .banking [] envNone (by decide) rfl rfl
    (fun c _ => rfl)).1

/-! ## Claim C5: the extreme-value pre-check -/

/-- The tier base scores that `check_extreme_fraud_patterns` can set (0 for
no detection). -/
def tier_bases : List ℚ := [0, 70, 80, 85, 90, 95]

/-- The sector tier stage sets a base score from `tier_bases`, and a base of
70 or more always comes with at least one risk factor. -/
theorem extremeTier_inv (s : Sector) (d : Record) (b : ℚ × List String)
    (h : extremeTier s d = .ok b) :
    b.1 ∈ tier_bases ∧ (70 ≤ b.1 → b.2 ≠ []) := by
  unfold extremeTier at h
  repeat' first
    | (split at h)
    | (dsimp only at h)
  all_goals first
    | (exfalso; exact Except.noConfusion h)
    | (simp only [Except.ok.injEq] at h
       subst h
       refine ⟨by norm_num [tier_bases], ?_⟩
       intro h70
       dsimp only at h70
       first
         | (simp; done)
         | norm_num at h70)

theorem negLoopStep_fst_mem (d : Record) (acc : ℚ × List String) (f : String)
    (h : acc.1 ∈ tier_bases) : (negLoopStep d acc f).1 ∈ tier_bases := by
  unfold negLoopStep
  split
  · split
    · simp only [tier_bases, List.mem_cons, List.not_mem_nil, or_false] at h ⊢
      rcases h with h | h | h | h | h | h <;> rw [h] <;> norm_num [max_def]
    · exact h
  · exact h

theorem negLoopStep_fst_le (d : Record) (acc : ℚ × List String) (f : String) :
    acc.1 ≤ (negLoopStep d acc f).1 := by
  unfold negLoopStep
  split
  · split
    · exact le_max_left _ _
    · exact le_refl _
  · exact le_refl _

theorem negLoopStep_snd_ne (d : Record) (acc : ℚ × List String) (f : String)
    (h : 70 ≤ acc.1 → acc.2 ≠ []) :
    70 ≤ (negLoopStep d acc f).1 → (negLoopStep d acc f).2 ≠ [] := by
  unfold negLoopStep
  split
  · split
    · intro _
      simp
    · exact h
  · exact h

theorem negLoopStep_trigger (d : Record) (acc : ℚ × List String) (f : String) (v : ℚ)
    (hv : pyFloat (d.get f (.num 0)) = .ok v) (hneg : v < 0) :
    85 ≤ (negLoopStep d acc f).1 := by
  unfold negLoopStep
  rw [hv]
  simp only [hneg, if_pos]
  exact le_max_right _ _

theorem negFold_fst_mem (d : Record) :
    ∀ (fields : List String) (acc : ℚ × List String), acc.1 ∈ tier_bases →
      (List.foldl (negLoopStep d) acc fields).1 ∈ tier_bases := by
  intro fields
  induction fields with
  | nil => intro acc h; exact h
  | cons f rest ih =>
    intro acc h
    exact ih _ (negLoopStep_fst_mem d acc f h)

theorem negFold_fst_le (d : Record) :
    ∀ (fields : List String) (acc : ℚ × List String),
      acc.1 ≤ (List.foldl (negLoopStep d) acc fields).1 := by
  intro fields
  induction fields with
  | nil => intro acc; exact le_refl _
  | cons f rest ih =>
    intro acc
    exact le_trans (negLoopStep_fst_le d acc f) (ih _)

theorem negFold_snd_ne (d : Record) :
    ∀ (fields : List String) (acc : ℚ × List String),
      (70 ≤ acc.1 → acc.2 ≠ []) →
      70 ≤ (List.foldl (negLoopStep d) acc fields).1 →
      (List.foldl (negLoopStep d) acc fields).2 ≠ [] := by
  intro fields
  induction fields with
  | nil => intro acc h; exact h
  | cons f rest ih =>
    intro acc h
    exact ih _ (negLoopStep_snd_ne d acc f h)

theorem negFold_trigger (d : Record) :
    ∀ (fields : List String) (acc : ℚ × List String) (f : String) (v : ℚ),
      f ∈ fields → pyFloat (d.get f (.num 0)) = .ok v → v < 0 →
      85 ≤ (List.foldl (negLoopStep d) acc fields).1 := by
  intro fields
  induction fields with
  | nil => intro acc f v hf; exact absurd hf (List.not_mem_nil f)
  | cons g rest ih =>
    intro acc f v hf hv hneg
    rcases List.mem_cons.1 hf with h | h
    · subst h
      calc (85 : ℚ) ≤ (negLoopStep d acc f).1 := negLoopStep_trigger d acc f v hv hneg
        _ ≤ (List.foldl (negLoopStep d) (negLoopStep d acc f) rest).1 := negFold_fst_le d rest _
    · exact ih _ f v h hv hneg

/-- When the base score reaches 70 after the negative-value loop, the
pre-check returns its result immediately with
`score = min(base + 2 x factor_count, 100)`. -/
theorem check_extreme_formula (s : Sector) (d : Record) (b : ℚ × List String)
    (h : extremeTier s d = .ok b) (h70 : 70 ≤ (negLoop d b).1) :
    check_extreme_fraud_patterns s d = .ok (Option.some
      { fraud_score := min ((negLoop d b).1 + ((negLoop d b).2.length : ℚ) * 2) 100,
        risk_level :=
          if min ((negLoop d b).1 + ((negLoop d b).2.length : ℚ) * 2) 100 ≥ 85
            then Risk.critical else Risk.high,
        risk_factors := (negLoop d b).2,
        model_used := Option.some "Extreme Fraud Pre-Check (Deterministic)",
        cost_saved := true }) := by
  have hne : (negLoop d b).2 ≠ [] :=
    negFold_snd_ne d negative_value_fields b (extremeTier_inv s d b h).2 h70
  have hlen : (negLoop d b).2.length > 0 := List.length_pos.2 hne
  unfold check_extreme_fraud_patterns
  rw [h, except_bind_ok]
  simp only [ge_iff_le, h70, hlen, and_true, true_and, if_pos, gt_iff_lt]

/-- The e-commerce record of the spec's extreme-value test: listed price 120
against market price 10 (ratio 12). -/
def c5_record : Record := [("listed_price", PyVal.num 120), ("market_price", PyVal.num 10)]

def c5_result : FraudResult :=
  { fraud_score := 99, risk_level := .critical,
    risk_factors := ["Extreme price markup", "Pricing scam/manipulation detected"],
    model_used := Option.some "Extreme Fraud Pre-Check (Deterministic)",
    cost_saved := true }

theorem c5_tier : extremeTier .ecommerce c5_record =
    .ok (95, ["Extreme price markup", "Pricing scam/manipulation detected"]) := by
  unfold extremeTier
  dsimp only
  rw [show pyFloat (c5_record.get "listed_price" (PyVal.num 0)) = .ok 120 from rfl]
  rw [show pyFloat (c5_record.get "market_price" (PyVal.num 0)) = .ok 10 from rfl]
  norm_num

theorem c5_negLoop : negLoop c5_record
    (95, ["Extreme price markup", "Pricing scam/manipulation detected"]) =
    (95, ["Extreme price markup", "Pricing scam/manipulation detected"]) := rfl

theorem c5_check : check_extreme_fraud_patterns .ecommerce c5_record =
    .ok (Option.some c5_result) := by
  unfold check_extreme_fraud_patterns
  rw [c5_tier, except_bind_ok]
  rw [show (negLoop c5_record
    (95, ["Extreme price markup", "Pricing scam/manipulation detected"])) =
    (95, ["Extreme price markup", "Pricing scam/manipulation detected"]) from rfl]
  norm_num [c5_result, min_def, get_risk_level]

theorem c5_run (envF : EnvF) (envC : EnvC) :
    analyze_fraud .ecommerce c5_record envF envC =
      ([OEvent.precheckExtreme], .ok c5_result) := by
  unfold analyze_fraud
  simp only [SECTOR_MODELS_two_stage, Bool.false_eq_true, if_false, c5_check]

/-- C5: the extreme-value pre-check maps each detected tier to a base score
in {70, 80, 85, 90, 95} (0 when nothing is detected), a negative monetary
field forces the base score to at least 85, a base score of at least 70
returns immediately with `score = min(base + 2 x factor_count, 100)` and the
pre-check source, and on the e-commerce record with price ratio 12 the run
returns a score of at least 95 from the pre-check without any model call. -/
theorem C5_extreme_value_precheck :
    (∀ (s : Sector) (d : Record) (b : ℚ × List String), extremeTier s d = .ok b →
      b.1 ∈ tier_bases ∧ (negLoop d b).1 ∈ tier_bases) ∧
    (∀ (s : Sector) (d : Record) (b : ℚ × List String) (field : String) (v : ℚ),
      extremeTier s d = .ok b → field ∈ negative_value_fields →
      pyFloat (d.get field (.num 0)) = .ok v → v < 0 → 85 ≤ (negLoop d b).1) ∧
    (∀ (s : Sector) (d : Record) (b : ℚ × List String),
      extremeTier s d = .ok b → 70 ≤ (negLoop d b).1 →
      check_extreme_fraud_patterns s d = .ok (Option.some
        { fraud_score := min ((negLoop d b).1 + ((negLoop d b).2.length : ℚ) * 2) 100,
          risk_level :=
            if min ((negLoop d b).1 + ((negLoop d b).2.length : ℚ) * 2) 100 ≥ 85
              then Risk.critical else Risk.high,
          risk_factors := (negLoop d b).2,
          model_used := Option.some "Extreme Fraud Pre-Check (Deterministic)",
          cost_saved := true })) ∧
    (∀ (envF : EnvF) (envC : EnvC),
      analyze_fraud .ecommerce c5_record envF envC =
        ([OEvent.precheckExtreme], .ok c5_result) ∧
      95 ≤ c5_result.fraud_score ∧ c5_result.cost_saved = true ∧
      (([OEvent.precheckExtreme] : List OEvent).all fun ev => !ev.isModelCall) = true) := by
  refine ⟨?_, ?_, check_extreme_formula, ?_⟩
  · intro s d b h
    exact ⟨(extremeTier_inv s d b h).1,
      negFold_fst_mem d negative_value_fields b (extremeTier_inv s d b h).1⟩
  · intro s d b field v _ hmem hv hneg
    exact negFold_trigger d negative_value_fields b field v hmem hv hneg
  · intro envF envC
    exact ⟨c5_run envF envC, by norm_num [c5_result], rfl, rfl⟩

/-- Witness for C5 at concrete instantiations of each hypothesis-bearing
part: the banking tier on the empty record, a record with a negative
amount, the ratio-12 e-commerce record, and its full run. -/
theorem C5_extreme_value_precheck_witness :
    ((0 : ℚ) ∈ tier_bases ∧
      (negLoop [("amount", PyVal.num (-5))] (0, [])).1 ∈ tier_bases) ∧
    85 ≤ (negLoop [("amount", PyVal.num (-5))] (0, [])).1 ∧
    analyze_fraud .ecommerce c5_record envNone Option.none =
      ([OEvent.precheckExtreme], .ok c5_result) := by
  refine ⟨?_, ?_, ?_⟩
  · exact (C5_extreme_value_precheck.1 .banking [("amount", PyVal.num (-5))] (0, []) rfl)
  · exact (C5_extreme_value_precheck.2.1 .banking [("amount", PyVal.num (-5))] (0, [])
      "amount" (-5) rfl (by decide) rfl (by norm_num))
  · exact (C5_extreme_value_precheck.2.2.2 envNone Option.none).1

end FraudForge

namespace FraudForge

/-- The C6 invariant: score in [0,100] and risk level equal to the bucket. -/
def ResultOK (r : FraudResult) : Prop :=
  0 ≤ r.fraud_score ∧ r.fraud_score ≤ 100 ∧ r.risk_level = get_risk_level r.fraud_score

theorem risk_critical_of_ge (q : ℚ) (h : 85 ≤ q) : get_risk_level q = .critical := by
  unfold get_risk_level
  split_ifs with h1 h2 h3 <;> first | rfl | linarith

theorem risk_high_of (q : ℚ) (h1 : 60 ≤ q) (h2 : q < 85) : get_risk_level q = .high := by
  unfold get_risk_level
  split_ifs with ha hb <;> first | rfl | linarith

theorem clamp0100_bounds (q : ℚ) : 0 ≤ clamp0100 q ∧ clamp0100 q ≤ 100 :=
  ⟨le_max_left _ _, max_le (by norm_num) (min_le_left _ _)⟩

theorem chains_bounds (s : Sector) (d : Record) (q : ℚ)
    (h : SCORING_CHAINS s d = .ok q) : 0 ≤ q ∧ q ≤ 100 := by
  cases s <;> unfold SCORING_CHAINS at h
  case banking =>
    simp only [Except.ok.injEq] at h
    subst h
    exact clamp0100_bounds _
  case medical =>
    simp only [Except.ok.injEq] at h
    subst h
    exact clamp0100_bounds _
  case ecommerce =>
    unfold score_ecommerce_fraud at h
    rcases hr : ecommerce_running_total d with e | x
    all_goals rw [hr] at h
    · exact absurd h (by simp [Except.map])
    · simp only [Except.map, Except.ok.injEq] at h
      subst h
      exact clamp0100_bounds _
  case supply_chain =>
    unfold score_supply_chain_fraud at h
    rcases hr : supplyExtract d with e | x
    all_goals rw [hr] at h
    · exact absurd h (by simp [Except.map])
    · simp only [Except.map, Except.ok.injEq] at h
      subst h
      exact clamp0100_bounds _

theorem rag_adjust_bounds (rag : String) (x : ℚ) (h0 : 0 ≤ x) (h1 : x ≤ 100) :
    0 ≤ rag_adjust rag x ∧ rag_adjust rag x ≤ 100 := by
  unfold rag_adjust
  simp only []
  split_ifs
  all_goals refine ⟨?_, ?_⟩
  all_goals first
    | exact h0
    | exact h1
    | exact le_max_left _ _
    | exact max_le (by norm_num) (by linarith)
    | exact le_min (by norm_num) (by linarith)
    | exact min_le_left _ _

theorem pyRound1_bounds (x : ℚ) (h0 : 0 ≤ x) (h1 : x ≤ 100) :
    0 ≤ pyRound1 x ∧ pyRound1 x ≤ 100 := by
  have hy0 : (0 : ℚ) ≤ 10 * x := by linarith
  have hy1 : 10 * x ≤ 1000 := by linarith
  have hf0 : (0 : ℚ) ≤ (⌊10 * x⌋ : ℚ) := by
    exact_mod_cast Int.floor_nonneg.2 hy0
  have hfle : (⌊10 * x⌋ : ℚ) ≤ 1000 := le_trans (Int.floor_le _) hy1
  have hten : (0 : ℚ) < 10 := by norm_num
  unfold pyRound1
  simp only []
  split_ifs with hlt hgt heven
  · exact ⟨div_nonneg hf0 (le_of_lt hten), by rw [div_le_iff₀ hten]; linarith⟩
  · have hlt1000 : (⌊10 * x⌋ : ℚ) < 1000 := by linarith
    have hz : ⌊10 * x⌋ < 1000 := by exact_mod_cast hlt1000
    have hle999 : (⌊10 * x⌋ : ℚ) ≤ 999 := by exact_mod_cast (by omega : ⌊10 * x⌋ ≤ 999)
    constructor
    · apply div_nonneg _ (le_of_lt hten)
      push_cast
      linarith
    · rw [div_le_iff₀ hten]
      push_cast
      linarith
  · exact ⟨div_nonneg hf0 (le_of_lt hten), by rw [div_le_iff₀ hten]; linarith⟩
  · have hge : 1/2 ≤ 10 * x - ⌊10 * x⌋ := le_of_not_lt hlt
    have hlt1000 : (⌊10 * x⌋ : ℚ) < 1000 := by linarith
    have hz : ⌊10 * x⌋ < 1000 := by exact_mod_cast hlt1000
    have hle999 : (⌊10 * x⌋ : ℚ) ≤ 999 := by exact_mod_cast (by omega : ⌊10 * x⌋ ≤ 999)
    constructor
    · apply div_nonneg _ (le_of_lt hten)
      push_cast
      linarith
    · rw [div_le_iff₀ hten]
      push_cast
      linarith

theorem calculate_bounds (s : Sector) (d : Record) (rag : String) (q : ℚ)
    (h : calculate_fraud_score s d rag = .ok q) : 0 ≤ q ∧ q ≤ 100 := by
  unfold calculate_fraud_score at h
  rcases hc : SCORING_CHAINS s d with e | x
  all_goals rw [hc] at h
  · rw [except_bind_error] at h
    exact absurd h (by simp)
  · rw [except_bind_ok] at h
    simp only [Except.ok.injEq] at h
    subst h
    have hx := chains_bounds s d x hc
    have ha := rag_adjust_bounds rag x hx.1 hx.2
    exact pyRound1_bounds _ ha.1 ha.2
end FraudForge

namespace FraudForge

theorem parse_fraud_score_range (text : String) :
    0 ≤ (parse_fraud_score text).1 ∧ (parse_fraud_score text).1 ≤ 100 := by
  simp only [parse_fraud_score]
  repeat' split
  all_goals
    exact ⟨le_max_left _ _, max_le (by norm_num) (min_le_left _ _)⟩

theorem parse_fraud_response_ok (text : String) : ResultOK (parse_fraud_response text) := by
  have h := parse_fraud_score_range text
  unfold parse_fraud_response ResultOK
  dsimp only
  refine ⟨?_, ?_, rfl⟩
  · exact_mod_cast h.1
  · exact_mod_cast h.2

theorem analyze_fraud_rule_based_ok (s : Sector) (d : Record) (r : FraudResult)
    (h : analyze_fraud_rule_based s d = .ok r) : ResultOK r := by
  unfold analyze_fraud_rule_based at h
  rcases hq : calculate_fraud_score s d "" with e | q
  all_goals rw [hq] at h
  · rw [except_bind_error] at h
    exact absurd h (by simp)
  · rw [except_bind_ok] at h
    simp only [Except.ok.injEq] at h
    subst h
    have hb := calculate_bounds s d "" q hq
    exact ⟨hb.1, hb.2, rfl⟩

theorem extreme_result_ok (s : Sector) (d : Record) (r : FraudResult)
    (h : check_extreme_fraud_patterns s d = .ok (Option.some r)) : ResultOK r := by
  unfold check_extreme_fraud_patterns at h
  rcases ht : extremeTier s d with e | b
  all_goals rw [ht] at h
  · rw [except_bind_error] at h
    exact absurd h (by simp)
  · rw [except_bind_ok] at h
    simp only [] at h
    split at h
    · rename_i hcond
      simp only [Except.ok.injEq, Option.some.injEq] at h
      subst h
      have hbase : 70 ≤ (negLoop d b).1 := hcond.1
      have hlen : (0 : ℚ) ≤ ((negLoop d b).2.length : ℚ) := by positivity
      have hscore70 : (70 : ℚ) ≤ min ((negLoop d b).1 + ((negLoop d b).2.length : ℚ) * 2) 100 :=
        le_min (by linarith) (by norm_num)
      refine ⟨by linarith, min_le_right _ _, ?_⟩
      dsimp only
      split_ifs with h85
      · exact (risk_critical_of_ge _ h85).symm
      · exact (risk_high_of _ (by linarith) (by linarith [lt_of_not_ge h85])).symm
    · exact absurd h (by simp)

theorem ofac_result_ok (s : Sector) (d : Record) (r : FraudResult)
    (h : ofac_precheck s d = .ok (Option.some r)) : ResultOK r := by
  unfold ofac_precheck at h
  simp only [] at h
  split at h
  · rcases hfl : ofac_red_flags s d with e | flags
    all_goals rw [hfl] at h
    · rw [except_bind_error] at h
      exact absurd h (by simp)
    · rw [except_bind_ok] at h
      split at h
      · rename_i h2
        simp only [Except.ok.injEq, Option.some.injEq] at h
        subst h
        have hL : (2 : ℚ) ≤ (flags.length : ℚ) := by exact_mod_cast h2
        have hb10 : (10 : ℚ) ≤ min ((flags.length : ℚ) * 5) 20 :=
          le_min (by linarith) (by norm_num)
        have hb20 : min ((flags.length : ℚ) * 5) 20 ≤ 20 := min_le_right _ _
        have h85 : (85 : ℚ) ≤ min (75 + min ((flags.length : ℚ) * 5) 20) 100 :=
          le_min (by linarith) (by norm_num)
        refine ⟨by linarith, min_le_right _ _, ?_⟩
        dsimp only
        rw [if_neg (by linarith)]
        exact (risk_critical_of_ge _ h85).symm
      · exact absurd h (by simp)
  · exact absurd h (by simp)

end FraudForge

namespace FraudForge

/-- Soundness of a provider oracle: every parsed outcome it returns
satisfies the invariant (the real helpers produce parser outputs, which do
by `parse_fraud_response_ok`). -/
def EnvOK (envF : EnvF) : Prop := ∀ p m r, envF p m = Option.some r → ResultOK r

theorem resultOK_set_model_used (r : FraudResult) (h : ResultOK r) (m : Option String) :
    ResultOK { r with model_used := m } := h

theorem candidate_loop_ok (envF : EnvF) (he : EnvOK envF) :
    ∀ (l : List ProviderCandidate) (idx : ℕ) (r : FraudResult),
      (candidate_loop envF l idx).2 = Option.some r → ResultOK r := by
  intro l
  induction l with
  | nil =>
    intro idx r h
    simp [candidate_loop] at h
  | cons c rest ih =>
    intro idx r h
    unfold candidate_loop at h
    split at h
    · exact ih _ _ h
    · split at h
      · rcases hev : envF c.provider c.model with _ | res
        all_goals rw [hev] at h
        · dsimp only at h
          exact ih _ _ h
        · simp only [Option.some.injEq] at h
          rw [← h]
          exact resultOK_set_model_used res (he _ _ _ hev) _
      · exact ih _ _ h

theorem fallback_loop_ok (envF : EnvF) (he : EnvOK envF) :
    ∀ (l : List ProviderCandidate) (idx : ℕ) (r : FraudResult),
      (fallback_loop envF l idx).2 = Option.some r → ResultOK r := by
  intro l
  induction l with
  | nil =>
    intro idx r h
    simp [fallback_loop] at h
  | cons c rest ih =>
    intro idx r h
    unfold fallback_loop at h
    split at h
    · rcases hev : envF c.provider c.model with _ | res
      all_goals rw [hev] at h
      · dsimp only at h
        exact ih _ _ h
      · simp only [Option.some.injEq] at h
        rw [← h]
        exact resultOK_set_model_used res (he _ _ _ hev) _
    · exact ih _ _ h

theorem all_failed_result_ok : ResultOK all_failed_result := by
  refine ⟨by norm_num [all_failed_result], by norm_num [all_failed_result], ?_⟩
  norm_num [all_failed_result, get_risk_level]

theorem try_fallback_models_ok (s : Sector) (envF : EnvF) (he : EnvOK envF) :
    ResultOK (try_fallback_models s envF).2 := by
  unfold try_fallback_models
  rcases hl : (fallback_loop envF (sector_fallbacks s) 1).2 with _ | res
  · simp only [hl]
    exact all_failed_result_ok
  · simp only [hl]
    exact fallback_loop_ok envF he _ _ _ hl

theorem analyze_two_stage_ok (s : Sector) (envF : EnvF) (envC : EnvC) (he : EnvOK envF)
    (t : List OEvent) (r : FraudResult)
    (h : analyze_two_stage s envF envC = (t, .ok r)) : ResultOK r := by
  unfold analyze_two_stage at h
  rcases envC with _ | flags
  · dsimp only at h
    have h2 := congrArg Prod.snd h
    simp only [Except.ok.injEq] at h2
    rw [← h2]
    exact try_fallback_models_ok s envF he
  · dsimp only at h
    rcases hev : envF stage2_candidate.provider stage2_candidate.model with _ | s2
    all_goals rw [hev] at h
    · have h2 := congrArg Prod.snd h
      simp only [Except.ok.injEq] at h2
      rw [← h2]
      exact try_fallback_models_ok s envF he
    · have h2 := congrArg Prod.snd h
      simp only [Except.ok.injEq] at h2
      rw [← h2]
      have hs2 := he _ _ _ hev
      exact ⟨hs2.1, hs2.2.1, rfl⟩

theorem analyze_fraud_ok (s : Sector) (d : Record) (envF : EnvF) (envC : EnvC)
    (he : EnvOK envF) (t : List OEvent) (r : FraudResult)
    (h : analyze_fraud s d envF envC = (t, .ok r)) : ResultOK r := by
  unfold analyze_fraud at h
  split at h
  · exact analyze_two_stage_ok s envF envC he t r h
  · split at h
    · exact absurd (congrArg Prod.snd h) (by simp)
    · rename_i extreme_fraud heq
      have h2 := congrArg Prod.snd h
      simp only [Except.ok.injEq] at h2
      rw [← h2]
      exact extreme_result_ok s d extreme_fraud heq
    · split at h
      · exact absurd (congrArg Prod.snd h) (by simp)
      · rename_i res heq
        have h2 := congrArg Prod.snd h
        simp only [Except.ok.injEq] at h2
        rw [← h2]
        exact ofac_result_ok s d res heq
      · simp only [] at h
        split at h
        · rename_i res heq
          have h2 := congrArg Prod.snd h
          simp only [Except.ok.injEq] at h2
          rw [← h2]
          exact candidate_loop_ok envF he _ _ res heq
        · have h2 := congrArg Prod.snd h
          dsimp only at h2
          exact analyze_fraud_rule_based_ok s d r h2

/-- The final selection of the workflow (`_analyze_with_llm`): either the
model result's fields or the rule-based score with its bucket. -/
def router_final (use_hf : Bool) (rule_based_score : ℚ) (hf : FraudResult) : ℚ × Risk :=
  if use_hf then (hf.fraud_score, hf.risk_level)
  else (rule_based_score, get_risk_level rule_based_score)

theorem router_final_ok (use_hf : Bool) (rb : ℚ) (hf : FraudResult)
    (hrb0 : 0 ≤ rb) (hrb1 : rb ≤ 100) (hok : ResultOK hf) :
    0 ≤ (router_final use_hf rb hf).1 ∧ (router_final use_hf rb hf).1 ≤ 100 ∧
      (router_final use_hf rb hf).2 = get_risk_level (router_final use_hf rb hf).1 := by
  unfold router_final
  split
  · exact hok
  · exact ⟨hrb0, hrb1, rfl⟩

end FraudForge

namespace FraudForge

def c6w_record : Record :=
  [("source_country", PyVal.str "Iran"), ("ip_address", PyVal.str "vpn 10.0.0.1")]

def c6w_ofac_result : FraudResult :=
  { fraud_score := 85, risk_level := .critical,
    risk_factors := ["OFAC sanctioned/high-risk country", "VPN/Proxy/TOR detected",
      "Unverified KYC"],
    model_used := Option.some "OFAC Pre-Check (Cost-Efficient)", cost_saved := true }

theorem c6w_ofac : ofac_precheck .banking c6w_record = .ok (Option.some c6w_ofac_result) := by
  unfold ofac_precheck
  simp only []
  rw [show (check_ofac_in_data c6w_record (SECTOR_LOCATION_FIELDS .banking)).1 = true
    from by decide]
  simp only [if_true]
  rw [show ofac_red_flags .banking c6w_record =
    .ok ["VPN/Proxy/TOR detected", "Unverified KYC"] from rfl]
  rw [except_bind_ok]
  norm_num [min_def, c6w_ofac_result]

theorem envNone_ok : EnvOK envNone := by
  intro p m r h
  exact Option.noConfusion h

theorem c6w_rule_based : analyze_fraud_rule_based .banking [] = .ok c10_result := by
  have h1 : calculate_fraud_score .banking [] "" = .ok 0 := by
    simp [calculate_fraud_score, SCORING_CHAINS, bank_empty_score, rag_adjust, round1_zero,
      except_bind_ok]
  simp [analyze_fraud_rule_based, h1, get_risk_level, except_bind_ok, c10_result]

theorem c6w_two_stage : analyze_two_stage .medical envNone Option.none =
    ([OEvent.modelCall "hf_space" "ironjeffe/google-medgemma-4b-it",
      OEvent.modelCall "openrouter" "nvidia/nemotron-3-nano-30b-a3b:free"],
      .ok all_failed_result) := rfl
end FraudForge

namespace FraudForge

/-- C6: every result produced by any stage of the pipeline — the model-response
parser, the deterministic rule-based analysis, the extreme-value pre-check, the
OFAC pre-check, the two-stage pipeline and the full orchestrator (under any
provider environment whose parsed model results themselves satisfy the
invariant) — carries a fraud_score in [0,100] and a risk_level equal to the
fixed threshold bucket of that score (score < 30 LOW; 30 ≤ score < 60 MEDIUM;
60 ≤ score < 85 HIGH; score ≥ 85 CRITICAL); and the router final answer keeps
the invariant, never taking a risk level verbatim from an upstream source. -/
theorem C6_risk_level_invariant :
    (∀ text : String, ResultOK (parse_fraud_response text)) ∧
    (∀ (s : Sector) (d : Record) (r : FraudResult),
      analyze_fraud_rule_based s d = .ok r → ResultOK r) ∧
    (∀ (s : Sector) (d : Record) (r : FraudResult),
      check_extreme_fraud_patterns s d = .ok (Option.some r) → ResultOK r) ∧
    (∀ (s : Sector) (d : Record) (r : FraudResult),
      ofac_precheck s d = .ok (Option.some r) → ResultOK r) ∧
    (∀ (s : Sector) (envF : EnvF) (envC : EnvC), EnvOK envF →
      ∀ (t : List OEvent) (r : FraudResult),
        analyze_two_stage s envF envC = (t, .ok r) → ResultOK r) ∧
    (∀ (s : Sector) (d : Record) (envF : EnvF) (envC : EnvC), EnvOK envF →
      ∀ (t : List OEvent) (r : FraudResult),
        analyze_fraud s d envF envC = (t, .ok r) → ResultOK r) ∧
    (∀ (use_hf : Bool) (rb : ℚ) (hf : FraudResult), 0 ≤ rb → rb ≤ 100 →
      ResultOK hf →
      0 ≤ (router_final use_hf rb hf).1 ∧ (router_final use_hf rb hf).1 ≤ 100 ∧
        (router_final use_hf rb hf).2 = get_risk_level (router_final use_hf rb hf).1) :=
  ⟨parse_fraud_response_ok,
   analyze_fraud_rule_based_ok,
   extreme_result_ok,
   ofac_result_ok,
   fun s envF envC he t r h => analyze_two_stage_ok s envF envC he t r h,
   fun s d envF envC he t r h => analyze_fraud_ok s d envF envC he t r h,
   fun u rb hf h0 h1 hok => router_final_ok u rb hf h0 h1 hok⟩

/-- Concrete instantiation of C6 at every stage: the parser on a scoreless
text, the rule-based result on an empty banking record, the extreme-value
pre-check result of the C5 record, the OFAC pre-check result of an
Iran/VPN record, the all-models-failed two-stage result, and the router
final answer built from the C5 pre-check result. -/
theorem C6_risk_level_invariant_witness :
    ResultOK (parse_fraud_response "The transaction looks legitimate.") ∧
    ResultOK c10_result ∧
    ResultOK c5_result ∧
    ResultOK c6w_ofac_result ∧
    ResultOK all_failed_result ∧
    (0 ≤ (router_final true 0 c5_result).1 ∧
      (router_final true 0 c5_result).1 ≤ 100 ∧
      (router_final true 0 c5_result).2 =
        get_risk_level (router_final true 0 c5_result).1) := by
  refine ⟨C6_risk_level_invariant.1 _, ?_, ?_, ?_, ?_, ?_⟩
  · exact C6_risk_level_invariant.2.1 .banking [] c10_result c6w_rule_based
  · exact C6_risk_level_invariant.2.2.1 .ecommerce c5_record c5_result c5_check
  · exact C6_risk_level_invariant.2.2.2.1 .banking c6w_record c6w_ofac_result c6w_ofac
  · exact C6_risk_level_invariant.2.2.2.2.1 .medical envNone Option.none envNone_ok
      _ all_failed_result c6w_two_stage
  · refine C6_risk_level_invariant.2.2.2.2.2.2 true 0 c5_result (by norm_num)
      (by norm_num) ?_
    unfold ResultOK
    refine ⟨by norm_num [c5_result], by norm_num [c5_result], ?_⟩
    norm_num [c5_result, get_risk_level]
